import Mathlib

/-!
My-Calls backend: the WebSocket signalling server (`my_calls_backend/server.js`).

A shallow embedding of the connection handler, the message handler, the close
handler and `updateAndBroadcastPresence`, then of `sendMessage` and the
participants of `getMessages` (`controllers/chatController.js`, with
`websocketManager.js`) and of `publishKeys` and `getKeyBundle`
(`controllers/keyBundleController.js`), followed by the properties proved
about them.

Modelling conventions
* A JavaScript value is a `JsVal`.  A JSON number is kept as the text that
  `Number::toString` gives it (two JSON numbers are the same Map key exactly
  when these texts agree, and the number is falsy exactly when the text is
  `0`).
* A frame handed to `ws.send(JSON.stringify(v))` is recorded as the value `v`
  together with the socket it was sent on; serialisation itself is not
  modelled.
* `jwt.verify` and `JSON.parse` are library functions and are parameters
  (`Env`); `none` stands for a thrown exception.
* `console.log` has no effect on the state, but the template literals passed
  to it are evaluated first, and converting a value to a string can throw;
  these conversions are kept (`JsVal.toStr`).
* `updateAndBroadcastPresence` is `async`: the call issues the database write
  (`Server.presenceWrites`) and the part after the `await` runs later
  (`presenceSettled`).
* The database calls of the controllers are awaited one after the other;
  what each settles to is a parameter (`ChatDb`, the flags of
  `getKeyBundle`), and the users collection is a function from ids to
  documents.
-/

namespace MyCalls

/-- A JavaScript value: what `JSON.parse` and `jwt.verify` produce, plus
`undefined` for the result of reading a property that is not there. -/
inductive JsVal where
  | undefined
  | null
  | bool (b : Bool)
  | num (text : String)
  | str (s : String)
  | arr (items : List JsVal)
  | obj (props : List (String × JsVal))

/-- Identity of a socket object (`ws`). -/
abbrev Handle := Nat

/-- A key of the JavaScript `Map` `wss.userConnections` under SameValueZero:
primitives compare by value, an array or object only equals itself, and the
only long-lived array/object key is the `userId` decoded for one socket. -/
inductive MapKey where
  | undefined
  | null
  | bool (b : Bool)
  | num (text : String)
  | str (s : String)
  | ref (owner : Handle)
  deriving DecidableEq

/-- `WebSocket.readyState`. -/
inductive ReadyState where
  | CONNECTING
  | OPEN
  | CLOSING
  | CLOSED
  deriving DecidableEq

/-- JavaScript truthiness (`!!v`). -/
def JsVal.truthy : JsVal → Bool
  | .undefined => false
  | .null => false
  | .bool b => b
  | .num text => text != "0"
  | .str s => s != ""
  | .arr _ => true
  | .obj _ => true

/-- Own property lookup in a parsed object. -/
def lookupProp : List (String × JsVal) → String → JsVal
  | [], _ => .undefined
  | (k, v) :: rest, key => if k = key then v else lookupProp rest key

/-- Whether a parsed object has an own property `key`. -/
def hasProp : List (String × JsVal) → String → Bool
  | [], _ => false
  | (k, _) :: rest, key => k = key || hasProp rest key

/-- Property read `v.key` for the property names the server reads (`type`,
`payload`, `user`, `id`, `targetUserId`, `callType`, `status`), none of which
exists on a prototype: `none` is the TypeError of reading from `undefined` or
`null`. -/
def JsVal.member? (v : JsVal) (key : String) : Option JsVal :=
  match v with
  | .undefined => none
  | .null => none
  | .obj props => some (lookupProp props key)
  | _ => some .undefined

/-- Property read on a value already known not to be `undefined` or `null`. -/
def JsVal.get (v : JsVal) (key : String) : JsVal :=
  match v with
  | .obj props => lookupProp props key
  | _ => .undefined

/-- Strict equality with a string literal, `v === 'lit'`. -/
def JsVal.isStr (v : JsVal) (lit : String) : Bool :=
  match v with
  | .str s => s = lit
  | _ => false

mutual
/-- String conversion of a template literal, `none` when it throws: an
object with an own `toString` property (never callable in parsed JSON) has
no primitive value; any other object is `[object Object]`; an array is its
elements joined by commas. -/
def JsVal.toStr : JsVal → Option String
  | .undefined => some "undefined"
  | .null => some "null"
  | .bool true => some "true"
  | .bool false => some "false"
  | .num text => some text
  | .str s => some s
  | .arr items => joinItems items
  | .obj props => if hasProp props "toString" then none else some "[object Object]"
/-- The function `Array.prototype.join` with the default separator: `undefined` and `null`
elements contribute the empty string. -/
def joinItems : List JsVal → Option String
  | [] => some ""
  | .undefined :: rest => joinRest rest
  | .null :: rest => joinRest rest
  | v :: rest =>
    match JsVal.toStr v, joinRest rest with
    | some a, some b => some (a ++ b)
    | _, _ => none
/-- The elements after the first, each preceded by the separator. -/
def joinRest : List JsVal → Option String
  | [] => some ""
  | .undefined :: rest => (joinRest rest).map (fun b => "," ++ b)
  | .null :: rest => (joinRest rest).map (fun b => "," ++ b)
  | v :: rest =>
    match JsVal.toStr v, joinRest rest with
    | some a, some b => some ("," ++ a ++ b)
    | _, _ => none
end

/-- The entries `0, 1, ...` of an array-like, as own properties. -/
def indexedFrom : Nat → List JsVal → List (String × JsVal)
  | _, [] => []
  | i, v :: rest => (toString i, v) :: indexedFrom (i + 1) rest

/-- Own enumerable properties copied by object spread `{...v}`. -/
def spread : JsVal → List (String × JsVal)
  | .obj props => props
  | .arr items => indexedFrom 0 items
  | .str s => indexedFrom 0 (s.toList.map (fun c => JsVal.str (String.singleton c)))
  | _ => []

/-- Assignment of property `key` in an object literal under construction: an
existing property keeps its place and gets the new value, a new one is added
last. -/
def setProp : List (String × JsVal) → String → JsVal → List (String × JsVal)
  | [], key, v => [(key, v)]
  | (k, w) :: rest, key, v =>
    if k = key then (k, v) :: rest else (k, w) :: setProp rest key v

/-- The Map key of a user id stored for socket `ws`. -/
def keyOf (ws : Handle) : JsVal → MapKey
  | .undefined => .undefined
  | .null => .null
  | .bool b => .bool b
  | .num text => .num text
  | .str s => .str s
  | .arr _ => .ref ws
  | .obj _ => .ref ws

/-- The Map key a freshly parsed value can hit: a fresh array or object is
identical to no stored key. -/
def freshKey : JsVal → Option MapKey
  | .undefined => some .undefined
  | .null => some .null
  | .bool b => some (.bool b)
  | .num text => some (.num text)
  | .str s => some (.str s)
  | .arr _ => none
  | .obj _ => none

/-- `Map.prototype.get`. -/
def mapGet : List (MapKey × Handle) → MapKey → Option Handle
  | [], _ => none
  | (k, h) :: rest, key => if k = key then some h else mapGet rest key

/-- `Map.prototype.set`: replaces the value of an existing key in place,
appends a new key. -/
def mapSet : List (MapKey × Handle) → MapKey → Handle → List (MapKey × Handle)
  | [], key, h => [(key, h)]
  | (k, h0) :: rest, key, h =>
    if k = key then (k, h) :: rest else (k, h0) :: mapSet rest key h

/-- `Map.prototype.delete` (the keys of a Map are distinct). -/
def mapDelete (m : List (MapKey × Handle)) (key : MapKey) : List (MapKey × Handle) :=
  m.filter (fun e => e.1 ≠ key)

/-- The fields of a socket object the server reads or writes. -/
structure Socket where
  readyState : ReadyState
  userId : JsVal
  listening : Bool

/-- Library functions the handlers call. -/
structure Env where
  verify : String → Option JsVal
  parse : String → Option JsVal

/-- A status passed to `updateAndBroadcastPresence`. -/
abbrev Status := String

/-- The server: `wss.userConnections`, `wss.clients`, the socket objects, and
the record of what the handlers did (frames sent, sockets terminated,
presence writes issued and not yet settled). -/
structure Server where
  userConnections : List (MapKey × Handle)
  clients : List Handle
  sockets : Handle → Socket
  sent : List (Handle × JsVal)
  terminated : List Handle
  presenceWrites : List (JsVal × Status)

/-- `ws.send(JSON.stringify(frame))`. -/
def Server.send (s : Server) (ws : Handle) (frame : JsVal) : Server :=
  { s with sent := s.sent ++ [(ws, frame)] }

/-- `ws.terminate()`: the socket is destroyed; unless it was already
CLOSED its state becomes CLOSING. -/
def Server.terminate (s : Server) (ws : Handle) : Server :=
  { s with
    terminated := s.terminated ++ [ws]
    sockets := Function.update s.sockets ws
      { s.sockets ws with
        readyState := if (s.sockets ws).readyState = .CLOSED then .CLOSED else .CLOSING } }

/-- `wss.userConnections.get(v)` for a value `v` read from a parsed frame. -/
def Server.lookup (s : Server) (v : JsVal) : Option Handle :=
  match freshKey v with
  | some key => mapGet s.userConnections key
  | none => none

/-- The test `targetWs && targetWs.readyState === WebSocket.OPEN`: the
socket to send on when it passes. -/
def Server.openTarget (s : Server) (targetWs : Option Handle) : Option Handle :=
  match targetWs with
  | some h => if (s.sockets h).readyState = .OPEN then some h else none
  | none => none

/-- The call `updateAndBroadcastPresence(userId, status)` up to its `await`:
the write `User.findByIdAndUpdate(userId, {presenceStatus: status, lastSeen})`
is issued. -/
def updateAndBroadcastPresence (s : Server) (userId : JsVal) (status : Status) : Server :=
  { s with presenceWrites := s.presenceWrites ++ [(userId, status)] }

/-- What the awaited `User.findByIdAndUpdate(...).select(...)` settles to. -/
inductive WriteResult where
  | dbError
  | notFound
  | updated (id : JsVal) (presenceStatus : JsVal) (lastSeen : String)

/-- The frame `{type: 'presence-update', payload: presencePayload}`. -/
def presenceFrame (id presenceStatus : JsVal) (lastSeen : String) : JsVal :=
  .obj [("type", .str "presence-update"),
        ("payload", .obj [("userId", id), ("status", presenceStatus), ("lastSeen", .str lastSeen)])]

/-- The loop `wss.clients.forEach(client => { if (client.readyState === OPEN) client.send(frame) })`. -/
def broadcast (s : Server) (frame : JsVal) : List Handle → Server
  | [] => s
  | client :: rest =>
    if (s.sockets client).readyState = .OPEN then broadcast (s.send client frame) frame rest
    else broadcast s frame rest

/-- The rest of `updateAndBroadcastPresence` after the `await`, for the
outstanding write number `i` (writes settle in any order). -/
def presenceSettled (s : Server) (i : Nat) (result : WriteResult) : Server :=
  if i < s.presenceWrites.length then
    let s1 := { s with presenceWrites := s.presenceWrites.eraseIdx i }
    match result with
    | .dbError => s1
    | .notFound => s1
    | .updated id presenceStatus lastSeen =>
      broadcast s1 (presenceFrame id presenceStatus lastSeen) s1.clients
  else s

/-- The listener `wss.on('connection', (ws, req) => ...)`; `token` is
`urlParams.get('token')`. -/
def onConnection (env : Env) (s : Server) (ws : Handle) (token : Option String) : Server :=
  match token with
  | none => s.terminate ws
  | some t =>
    if t = "" then s.terminate ws
    else
      match env.verify t with
      | none => s.terminate ws
      | some decoded =>
        match (decoded.member? "user").bind (fun user => user.member? "id") with
        | none => s.terminate ws
        | some userId =>
          let s1 := { s with userConnections := mapSet s.userConnections (keyOf ws userId) ws }
          match userId.toStr with
          | none => s1.terminate ws
          | some _ =>
            let s2 := { s1 with
              sockets := Function.update s1.sockets ws { s1.sockets ws with userId := userId } }
            let s3 := updateAndBroadcastPresence s2 userId "online"
            { s3 with
              sockets := Function.update s3.sockets ws { s3.sockets ws with listening := true } }

/-- The frame `{type: 'error', message: text}`. -/
def errorFrame (text : String) : JsVal :=
  .obj [("type", .str "error"), ("message", .str text)]

/-- The frame `{type: 'incoming-call', payload: {callerId, callType}}`. -/
def incomingCallFrame (senderId callType : JsVal) : JsVal :=
  .obj [("type", .str "incoming-call"),
        ("payload", .obj [("callerId", senderId),
                          ("callType", if callType.truthy then callType else .str "voice")])]

/-- The frame `{type: 'call-error', payload: {message: text}}`. -/
def callErrorFrame (text : String) : JsVal :=
  .obj [("type", .str "call-error"), ("payload", .obj [("message", .str text)])]

/-- The frame `{type, payload: {...payload, senderId}}`. -/
def forwardFrame (type payload senderId : JsVal) : JsVal :=
  .obj [("type", type), ("payload", .obj (setProp (spread payload) "senderId" senderId))]

/-- The labels of the relayed cases of the `switch`. -/
def forwardable : List String :=
  ["offer", "answer", "ice-candidate", "call-accepted", "call-rejected", "call-ended"]

/-- The case `update-presence`. -/
def updatePresence (s : Server) (senderId payload : JsVal) : Server :=
  if payload.truthy &&
      ((payload.get "status").isStr "active" || (payload.get "status").isStr "idle") then
    let newStatus := if (payload.get "status").isStr "active" then "online" else "idle"
    updateAndBroadcastPresence s senderId newStatus
  else s

/-- The case `call-user`; each branch first evaluates the template literal
of its log line, and the `else` branch the one of the message. -/
def callUser (s : Server) (ws : Handle) (senderId targetUserId callType : JsVal)
    (targetWs : Option Handle) : Option Server :=
  match s.openTarget targetWs with
  | some h =>
    match senderId.toStr, targetUserId.toStr with
    | some _, some _ => some (s.send h (incomingCallFrame senderId callType))
    | _, _ => none
  | none =>
    match targetUserId.toStr with
    | some shown => some (s.send ws (callErrorFrame ("User " ++ shown ++ " is not available.")))
    | none => none

/-- The body shared by the cases `offer`, `answer`, `ice-candidate` and
`call-accepted`, `call-rejected`, `call-ended`; each branch first evaluates
the template literal of its log line. -/
def relay (s : Server) (type payload senderId targetUserId : JsVal)
    (targetWs : Option Handle) : Option Server :=
  match s.openTarget targetWs with
  | some h =>
    match type.toStr, senderId.toStr, targetUserId.toStr with
    | some _, some _, some _ => some (s.send h (forwardFrame type payload senderId))
    | _, _, _ => none
  | none =>
    match type.toStr, targetUserId.toStr with
    | some _, some _ => some s
    | _, _ => none

/-- The `try` block of the `message` listener from the destructuring of
the payload on: the lookup of the target and the `switch`.  The log line of
the `default` case converts `type` again, which the first log line has
already done without throwing. -/
def routeMessage (s : Server) (ws : Handle) (type payload : JsVal) : Option Server :=
  let senderId := (s.sockets ws).userId
  let fields := if payload.truthy then payload else .obj []
  let targetUserId := fields.get "targetUserId"
  let callType := fields.get "callType"
  let targetWs := if targetUserId.truthy then s.lookup targetUserId else none
  if type.isStr "update-presence" then some (updatePresence s senderId payload)
  else if type.isStr "call-user" then callUser s ws senderId targetUserId callType targetWs
  else if type.isStr "offer" || type.isStr "answer" || type.isStr "ice-candidate" then
    relay s type payload senderId targetUserId targetWs
  else if type.isStr "call-accepted" || type.isStr "call-rejected"
      || type.isStr "call-ended" then
    relay s type payload senderId targetUserId targetWs
  else some (s.send ws (errorFrame "Unknown message type"))

/-- The `try` block of the `message` listener: `none` when it throws (every
throw precedes the first effect).  It parses, destructures `type` and
`payload`, evaluates the template literal of the first log line, and
routes. -/
def handleMessage (env : Env) (s : Server) (ws : Handle) (message : String) : Option Server :=
  match env.parse message with
  | none => none
  | some parsedMessage =>
    match parsedMessage.member? "type", parsedMessage.member? "payload" with
    | some type, some payload =>
      match type.toStr, ((s.sockets ws).userId).toStr with
      | some _, some _ => routeMessage s ws type payload
      | _, _ => none
    | _, _ => none

/-- The listener `ws.on('message', ...)`: the `try` block, and the `catch`
that answers the sender when it threw. -/
def onMessage (env : Env) (s : Server) (ws : Handle) (message : String) : Server :=
  match handleMessage env s ws message with
  | some s1 => s1
  | none => s.send ws (errorFrame "Invalid message format")

/-- The listener `ws.on('close', ...)`.  The log line between the delete
and the presence call converts `ws.userId` to a string; were that to throw,
the listener would end there. -/
def onClose (s : Server) (ws : Handle) : Server :=
  let userId := (s.sockets ws).userId
  if userId.truthy then
    let s1 := { s with userConnections := mapDelete s.userConnections (keyOf ws userId) }
    match userId.toStr with
    | some _ => updateAndBroadcastPresence s1 userId "offline"
    | none => s1
  else s

/-! ## Events

The `ws` library keeps `wss.clients`: it adds a socket before it emits
`connection` for it and removes it when the socket closes, and a socket is
OPEN from its `connection` event until it is CLOSED at its `close` event. -/

/-- What the `ws` server has done when it emits `connection` for a new
socket object: the socket is OPEN, in `wss.clients`, and has neither a
`userId` nor listeners yet. -/
def Server.wsOpened (s : Server) (ws : Handle) : Server :=
  { s with
    clients := if ws ∈ s.clients then s.clients else s.clients ++ [ws]
    sockets := Function.update s.sockets ws
      { readyState := .OPEN, userId := .undefined, listening := false } }

/-- What the `ws` library has done when the listeners of `close` run: the
socket is CLOSED and no longer in `wss.clients`. -/
def Server.wsClosed (s : Server) (ws : Handle) : Server :=
  { s with
    clients := s.clients.filter (fun c => c ≠ ws)
    sockets := Function.update s.sockets ws { s.sockets ws with readyState := .CLOSED } }

/-- What happens to the server: a socket connects with the `token` of its
URL, a raw frame arrives on a socket, a socket closes, or the outstanding
presence write number `i` settles. -/
inductive Event where
  | connection (ws : Handle) (token : Option String)
  | message (ws : Handle) (message : String)
  | close (ws : Handle)
  | settled (i : Nat) (result : WriteResult)

/-- One event: the listener registered for it runs (a socket refused at
connect has no `message` or `close` listener). -/
def step (env : Env) (s : Server) : Event → Server
  | .connection ws token => onConnection env (s.wsOpened ws) ws token
  | .message ws message => if (s.sockets ws).listening then onMessage env s ws message else s
  | .close ws =>
    if ((s.wsClosed ws).sockets ws).listening then onClose (s.wsClosed ws) ws else s.wsClosed ws
  | .settled i result => presenceSettled s i result

/-- A sequence of events, oldest first. -/
def run (env : Env) (s : Server) (events : List Event) : Server :=
  events.foldl (step env) s

/-- The frames sent between two states of the server. -/
def sentSince (before after : Server) : List (Handle × JsVal) :=
  after.sent.drop before.sent.length

/-- Whether a frame is a `presence-update` about user `U`. -/
def isPresenceOf (U : String) (frame : JsVal) : Bool :=
  (frame.get "type").isStr "presence-update" && ((frame.get "payload").get "userId").isStr U

/-! ## The chat controller (`controllers/chatController.js`) and `websocketManager.js` -/

/-- The UTF-16 code units of a character, the units JavaScript strings are
compared by. -/
def utf16Char (c : Char) : List Nat :=
  if c.toNat < 0x10000 then [c.toNat]
  else [0xD800 + (c.toNat - 0x10000) / 0x400, 0xDC00 + (c.toNat - 0x10000) % 0x400]

/-- The UTF-16 code units of a string. -/
def utf16 : List Char → List Nat
  | [] => []
  | c :: rest => utf16Char c ++ utf16 rest

/-- String comparison `x < y` of JavaScript on the code units: the first
differing unit decides, and a proper prefix is smaller. -/
def unitsLt : List Nat → List Nat → Bool
  | [], [] => false
  | [], _ :: _ => true
  | _ :: _, [] => false
  | a :: x, b :: y => if a < b then true else if b < a then false else unitsLt x y

/-- The expression `[x, y].sort()`: without a comparator the elements are
compared by their string conversions, `undefined` goes last, equal elements
keep their order, and a conversion that throws makes the sort throw. -/
def sortPair (x y : JsVal) : Option (List JsVal) :=
  match x, y with
  | .undefined, _ => some [y, x]
  | _, .undefined => some [x, y]
  | _, _ =>
    match x.toStr, y.toStr with
    | some a, some b => some (if unitsLt (utf16 b.toList) (utf16 a.toList) then [y, x] else [x, y])
    | _, _ => none

/-- The module `websocketManager.js` after `initializeWebSocketManager(wss)`
ran or not: `getSocketServerInstance()` returns the server object or
`null`. -/
def getSocketServerInstance (initialized : Bool) (wss : Server) : Option Server :=
  if initialized then some wss else none

/-- The function `initializeWebSocketManager`: the module is initialised afterwards
(a first instance is never replaced). -/
def initializeWebSocketManager (initialized : Bool) : Bool :=
  if !initialized then true else initialized

/-- What the awaited database calls of `sendMessage` settle to, in the
order of the calls; `none` and `false` stand for a rejected call. -/
structure ChatDb where
  conversation : Option JsVal
  messageSaved : Bool
  conversationSaved : Bool
  populatedMessage : Option JsVal

/-- The answers of `sendMessage`: 400 with a message, 201 with the
populated message, 500 (whose body carries the text of the error). -/
inductive ChatResponse where
  | badRequest (message : String)
  | created (populatedMessage : JsVal)
  | serverError

/-- What `sendMessage` did, in order. -/
inductive ChatStep where
  | conversationUpserted (participants : List JsVal)
  | messageSaved (senderId : String) (receiverId messageType content : JsVal)
  | conversationSaved
  | messageFetched
  | pushed (socket : Handle) (frame : JsVal)
  | responded (response : ChatResponse)

/-- The frame `{type: 'new-message', payload: populatedMessage}`. -/
def newMessageFrame (populatedMessage : JsVal) : JsVal :=
  .obj [("type", .str "new-message"), ("payload", populatedMessage)]

/-- The participants of `sendMessage`, `[senderId, receiverId].sort()`. -/
def sendMessageParticipants (senderId : String) (receiverId : JsVal) : Option (List JsVal) :=
  sortPair (.str senderId) receiverId

/-- The participants of `getMessages`, `[currentUserId, otherUserId].sort()`. -/
def getMessagesParticipants (currentUserId otherUserId : String) : Option (List JsVal) :=
  sortPair (.str currentUserId) (.str otherUserId)

/-- The real-time part of `sendMessage` and its answer, after the message
was fetched back: the push on the receiver's socket when the registry has
one that is open, then 201. -/
def pushToReceiver (initialized : Bool) (wss : Server) (receiverId populatedMessage : JsVal)
    (done : List ChatStep) : Server × List ChatStep :=
  match getSocketServerInstance initialized wss with
  | none => (wss, done ++ [.responded (.created populatedMessage)])
  | some wssInstance =>
    match receiverId.toStr with
    | none => (wss, done ++ [.responded .serverError])
    | some key =>
      match wssInstance.openTarget (mapGet wssInstance.userConnections (.str key)) with
      | some receiverSocket =>
        (wssInstance.send receiverSocket (newMessageFrame populatedMessage),
          done ++ [.pushed receiverSocket (newMessageFrame populatedMessage),
            .responded (.created populatedMessage)])
      | none => (wss, done ++ [.responded (.created populatedMessage)])

/-- The handler `sendMessage` for the body `req.body` (an object) of a request
authenticated as `userId`, with the server object in the state it has when
the handler reaches the push. -/
def sendMessage (initialized : Bool) (wss : Server) (db : ChatDb) (body : JsVal)
    (userId : String) : Server × List ChatStep :=
  let receiverId := body.get "receiverId"
  let content := body.get "content"
  let messageType :=
    match body.get "messageType" with
    | .undefined => .str "text"
    | given => given
  let senderId := userId
  if !receiverId.truthy || !content.truthy then
    (wss, [.responded (.badRequest "Receiver ID and content are required.")])
  else if receiverId.isStr senderId then
    (wss, [.responded (.badRequest "Cannot send message to yourself.")])
  else
    match sendMessageParticipants senderId receiverId with
    | none => (wss, [.responded .serverError])
    | some participants =>
      match db.conversation with
      | none => (wss, [.responded .serverError])
      | some _ =>
        if !db.messageSaved then
          (wss, [.conversationUpserted participants, .responded .serverError])
        else if !db.conversationSaved then
          (wss, [.conversationUpserted participants,
            .messageSaved senderId receiverId messageType content, .responded .serverError])
        else
          match db.populatedMessage with
          | none =>
            (wss, [.conversationUpserted participants,
              .messageSaved senderId receiverId messageType content, .conversationSaved,
              .responded .serverError])
          | some populatedMessage =>
            pushToReceiver initialized wss receiverId populatedMessage
              [.conversationUpserted participants,
                .messageSaved senderId receiverId messageType content, .conversationSaved,
                .messageFetched]

/-- Whether, in a record of steps, no push comes before the message was
saved. -/
def pushOnlyAfterSave : List ChatStep → Bool
  | [] => true
  | .messageSaved _ _ _ _ :: _ => true
  | .pushed _ _ :: _ => false
  | _ :: rest => pushOnlyAfterSave rest

/-! ## The key bundle controller (`controllers/keyBundleController.js`) -/

/-- The validation at the head of `publishKeys` on `req.body`: the message
of the 400 answer, or `none` when the body passes. -/
def publishKeysValidation (body : JsVal) : Option String :=
  let identityKey := body.get "identityKey"
  let registrationId := body.get "registrationId"
  let signedPreKey := body.get "signedPreKey"
  let oneTimePreKeys := body.get "oneTimePreKeys"
  let isUndefined : JsVal → Bool := fun v =>
    match v with
    | .undefined => true
    | _ => false
  let isArray : JsVal → Bool := fun v =>
    match v with
    | .arr _ => true
    | _ => false
  if !identityKey.truthy || isUndefined registrationId || !signedPreKey.truthy
      || !(signedPreKey.get "keyId").truthy || !(signedPreKey.get "publicKey").truthy
      || !(signedPreKey.get "signature").truthy then
    some "Missing required key bundle components."
  else if oneTimePreKeys.truthy && !isArray oneTimePreKeys then
    some "oneTimePreKeys must be an array."
  else none

/-- The fields of a user document that `getKeyBundle` reads. -/
structure KeyDoc where
  id : JsVal
  identityKey : JsVal
  registrationId : JsVal
  signedPreKey : JsVal
  oneTimePreKeys : List JsVal

/-- The users collection, by id. -/
abbrev Users := String → Option KeyDoc

/-- The answers of `getKeyBundle`: 404, 500, or 200 with
`{userId, identityKey, registrationId, signedPreKey, oneTimePreKey}`. -/
inductive KeyResponse where
  | notFound
  | serverError
  | bundle (userId identityKey registrationId signedPreKey oneTimePreKey : JsVal)

/-- The update `{ $pop: { oneTimePreKeys: -1 } }` on the document with the
given id: the first element of the stored array is removed. -/
def popFirstPreKey (users : Users) (id : String) : Users :=
  match users id with
  | some doc => Function.update users id (some { doc with oneTimePreKeys := doc.oneTimePreKeys.drop 1 })
  | none => users

/-- The handler `getKeyBundle` for `req.params.userId`; `findSettles` and
`popSettles` say whether the two awaited database calls succeed. -/
def getKeyBundle (users : Users) (requestedUserId : String) (findSettles popSettles : Bool) :
    Users × KeyResponse :=
  if !findSettles then (users, .serverError)
  else
    match users requestedUserId with
    | none => (users, .notFound)
    | some user =>
      if !user.identityKey.truthy || !user.signedPreKey.truthy then (users, .notFound)
      else
        match user.oneTimePreKeys with
        | oneTimeKey :: _ =>
          if !popSettles then (users, .serverError)
          else
            (popFirstPreKey users requestedUserId,
              .bundle user.id user.identityKey user.registrationId user.signedPreKey oneTimeKey)
        | [] =>
          (users, .bundle user.id user.identityKey user.registrationId user.signedPreKey .null)

/-- Whether a raw frame parses to a frame of type `update-presence`. -/
def isUpdatePresence (env : Env) (raw : String) : Bool :=
  match env.parse raw with
  | some parsed =>
    match parsed.member? "type" with
    | some type => type.isStr "update-presence"
    | none => false
  | none => false

/-- The presence transitions an event requests: the calls of
`updateAndBroadcastPresence` its listener makes, read off the writes it adds
to the outstanding ones (a settling write requests nothing). -/
def requested (env : Env) (s : Server) : Event → List (JsVal × Status)
  | .settled _ _ => []
  | e => (step env s e).presenceWrites.drop s.presenceWrites.length

/-- The presence transitions requested along a sequence of events, in
order. -/
def requestedBy (env : Env) (s : Server) : List Event → List (JsVal × Status)
  | [] => []
  | e :: rest => requested env s e ++ requestedBy env (step env s e) rest

/-! ## One connect/close cycle of a user, among other events -/

/-- The stages of one connect/close cycle of a user on a socket: the socket
is connected and its `online` write outstanding; connected with the `online`
write settled; closed with both writes outstanding; closed with only the
`offline` write outstanding; closed with both writes settled. -/
inductive CyclePhase where
  | onlineOutstanding
  | onlineSettled
  | closedOnlineOutstanding
  | closedOnlineSettled
  | finished
  deriving DecidableEq

/-- Whether an outstanding write is the write of `status` for user `U`. -/
def writeIs (U : String) (status : Status) (w : JsVal × Status) : Bool :=
  w.1.isStr U && w.2 == status

/-- Whether a write succeeded with the record of user `U` in `status`, last
seen at `seen`. -/
def settlesWith (U : String) (status seen : String) : WriteResult → Bool
  | .updated id presenceStatus lastSeen =>
    id.isStr U && presenceStatus.isStr status && lastSeen == seen
  | _ => false

/-- Whether a write returned a record of user `U`. -/
def aboutUser (U : String) : WriteResult → Bool
  | .updated id _ _ => id.isStr U
  | _ => false

/-- An event that is no part of the cycle of user `U` on socket `ws` watched
from socket `X`: a connect of another socket that does not authenticate as
`U`, a close of another socket that is not one of `U`, a frame that is not
an `update-presence` from a socket of `U`, or the settling of a write that is
not one of `U` (with a record that is not the one of `U`).  The sockets `ws`
and `X` neither connect nor close. -/
def quietEvent (env : Env) (U : String) (ws X : Handle) (s : Server) : Event → Bool
  | .connection w token =>
    w != ws && w != X &&
      !(((step env s (.connection w token)).sockets w).userId.isStr U)
  | .message w raw => !(isUpdatePresence env raw && (s.sockets w).userId.isStr U)
  | .close w => w != ws && w != X && !((s.sockets w).userId.isStr U)
  | .settled i result =>
    match s.presenceWrites[i]? with
    | none => true
    | some w => !(w.1.isStr U) && !(aboutUser U result)

/-- Whether an event is the close of socket `ws`. -/
def isCloseOf (ws : Handle) : Event → Bool
  | .close w => w == ws
  | _ => false

/-- Whether an event is the outstanding write of `status` for user `U`
settling successfully, with last-seen value `seen`. -/
def settlesWrite (U : String) (status seen : String) (s : Server) : Event → Bool
  | .settled i result =>
    match s.presenceWrites[i]? with
    | none => false
    | some w => writeIs U status w && settlesWith U status seen result
  | _ => false

/-- The stage after an event, `none` when the event does not fit into one
cycle in which both writes succeed and the `online` write settles before the
`offline` write. -/
def nextPhase (env : Env) (U : String) (ws X : Handle) (seenOnline seenOffline : String)
    (phase : CyclePhase) (s : Server) (e : Event) : Option CyclePhase :=
  if isCloseOf ws e then
    match phase with
    | .onlineOutstanding => some .closedOnlineOutstanding
    | .onlineSettled => some .closedOnlineSettled
    | _ => none
  else if settlesWrite U "online" seenOnline s e then
    match phase with
    | .onlineOutstanding => some .onlineSettled
    | .closedOnlineOutstanding => some .closedOnlineSettled
    | _ => none
  else if settlesWrite U "offline" seenOffline s e then
    match phase with
    | .closedOnlineSettled => some .finished
    | _ => none
  else if quietEvent env U ws X s e then
    match phase with
    | .finished => none
    | stage => some stage
  else none

/-- Whether the events after the connect of user `U` on socket `ws` make up
the rest of one connect/close cycle, ending when its `offline` write
settles: the socket closes once, both writes succeed, the `online` write
settles before the `offline` write, and every other event is quiet. -/
def cycleTrace (env : Env) (U : String) (ws X : Handle) (seenOnline seenOffline : String) :
    CyclePhase → Server → List Event → Bool
  | phase, _, [] => phase = .finished
  | phase, s, e :: rest =>
    match nextPhase env U ws X seenOnline seenOffline phase s e with
    | some next => cycleTrace env U ws X seenOnline seenOffline next (step env s e) rest
    | none => false

/-- The presence transitions for `U` still to be requested in a stage. -/
def requestsLeft (U : String) : CyclePhase → List (JsVal × Status)
  | .onlineOutstanding => [(.str U, "offline")]
  | .onlineSettled => [(.str U, "offline")]
  | _ => []

/-- The `presence-update` frames about `U` still to be sent on socket `X`
in a stage. -/
def framesLeft (X : Handle) (U seenOnline seenOffline : String) :
    CyclePhase → List (Handle × JsVal)
  | .onlineOutstanding =>
    [(X, presenceFrame (.str U) (.str "online") seenOnline),
     (X, presenceFrame (.str U) (.str "offline") seenOffline)]
  | .closedOnlineOutstanding =>
    [(X, presenceFrame (.str U) (.str "online") seenOnline),
     (X, presenceFrame (.str U) (.str "offline") seenOffline)]
  | .onlineSettled => [(X, presenceFrame (.str U) (.str "offline") seenOffline)]
  | .closedOnlineSettled => [(X, presenceFrame (.str U) (.str "offline") seenOffline)]
  | .finished => []

/-- What stays true throughout a cycle of user `U` on socket `ws` watched
from socket `X`: `X` is an open member of the duplicate-free `wss.clients`,
and `ws` carries the user id `U` and its listeners. -/
def CycleInvariant (U : String) (ws X : Handle) (s : Server) : Prop :=
  X ∈ s.clients ∧ s.clients.Nodup ∧ (s.sockets X).readyState = .OPEN ∧
  (s.sockets ws).userId = .str U ∧ (s.sockets ws).listening = true

/-- The presence writes of `U` outstanding in a stage. -/
def writesOutstanding (U : String) : CyclePhase → List (JsVal × Status)
  | .onlineOutstanding => [(.str U, "online")]
  | .onlineSettled => []
  | .closedOnlineOutstanding => [(.str U, "online"), (.str U, "offline")]
  | .closedOnlineSettled => [(.str U, "offline")]
  | .finished => []

/-! ## Concrete scenarios on which the handlers are evaluated -/

/-- A socket as the `connection` event delivers it. -/
def freshSocket : Socket :=
  { readyState := .OPEN, userId := .undefined, listening := false }

/-- A server on which nobody has connected yet. -/
def emptyServer : Server :=
  { userConnections := [], clients := [], sockets := fun _ => freshSocket,
    sent := [], terminated := [], presenceWrites := [] }

/-- The decoded token body `{user: {id}}` that `authController` signs. -/
def decodedFor (id : String) : JsVal :=
  .obj [("user", .obj [("id", .str id)])]

/-- The payload `{targetUserId: target, ...more}`. -/
def payloadTo (target : JsVal) (more : List (String × JsVal)) : JsVal :=
  .obj (("targetUserId", target) :: more)

/-- The parsed frame `{type, payload}`. -/
def frameOf (type : String) (payload : JsVal) : JsVal :=
  .obj [("type", .str type), ("payload", payload)]

/-- The raw frame `{"type":"offer","payload":{"targetUserId":"bob","sdp":"v=0","senderId":"mallory"}}`. -/
def rawOfferAsMallory : String :=
  "\x7b\"type\":\"offer\",\"payload\":\x7b\"targetUserId\":\"bob\",\"sdp\":\"v=0\",\"senderId\":\"mallory\"\x7d\x7d"

/-- The raw frame `{"type":"offer","payload":{"targetUserId":"bob","sdp":"v=0","senderId":"eve"}}`. -/
def rawOfferAsEve : String :=
  "\x7b\"type\":\"offer\",\"payload\":\x7b\"targetUserId\":\"bob\",\"sdp\":\"v=0\",\"senderId\":\"eve\"\x7d\x7d"

/-- The raw frame `{"type":"offer","payload":{"targetUserId":"alice","sdp":"v=0"}}`. -/
def rawOfferToAlice : String :=
  "\x7b\"type\":\"offer\",\"payload\":\x7b\"targetUserId\":\"alice\",\"sdp\":\"v=0\"\x7d\x7d"

/-- The raw frame `{"type":"offer","payload":{"targetUserId":"carol","sdp":"v=0"}}`. -/
def rawOfferToCarol : String :=
  "\x7b\"type\":\"offer\",\"payload\":\x7b\"targetUserId\":\"carol\",\"sdp\":\"v=0\"\x7d\x7d"

/-- The raw frame `{"type":"offer","payload":{"targetUserId":{"toString":1}}}`. -/
def rawOfferToObject : String :=
  "\x7b\"type\":\"offer\",\"payload\":\x7b\"targetUserId\":\x7b\"toString\":1\x7d\x7d\x7d"

/-- The raw frame `{"type":"call-user","payload":{"targetUserId":"alice","callType":"video"}}`. -/
def rawCallAlice : String :=
  "\x7b\"type\":\"call-user\",\"payload\":\x7b\"targetUserId\":\"alice\",\"callType\":\"video\"\x7d\x7d"

/-- The raw frame `{"type":"call-user","payload":{"targetUserId":"bob","callType":""}}`. -/
def rawCallBob : String :=
  "\x7b\"type\":\"call-user\",\"payload\":\x7b\"targetUserId\":\"bob\",\"callType\":\"\"\x7d\x7d"

/-- The raw frame `{"type":"call-user","payload":{"targetUserId":"carol"}}`. -/
def rawCallCarol : String :=
  "\x7b\"type\":\"call-user\",\"payload\":\x7b\"targetUserId\":\"carol\"\x7d\x7d"

/-- The raw frame `{"type":"call-user","payload":{"targetUserId":{"toString":1}}}`. -/
def rawCallObject : String :=
  "\x7b\"type\":\"call-user\",\"payload\":\x7b\"targetUserId\":\x7b\"toString\":1\x7d\x7d\x7d"

/-- The raw frame `{"type":"update-presence","payload":{"status":"active"}}`. -/
def rawPresenceActive : String :=
  "\x7b\"type\":\"update-presence\",\"payload\":\x7b\"status\":\"active\"\x7d\x7d"

/-- The raw frame `{"type":"ping","payload":{"targetUserId":"bob"}}`. -/
def rawPingBob : String :=
  "\x7b\"type\":\"ping\",\"payload\":\x7b\"targetUserId\":\"bob\"\x7d\x7d"

/-- The raw frame `{"type":{"toString":1}}`. -/
def rawObjectType : String :=
  "\x7b\"type\":\x7b\"toString\":1\x7d\x7d"

/-- A verifier that knows the tokens of alice and bob, one token whose
body has no `user` and one whose body is `{"user":"abc"}`, and a parser that
knows the frames above (every other text, such as `not json`, fails to
parse). -/
def demoEnv : Env where
  verify := fun token =>
    if token = "jwt-alice" then some (decodedFor "alice")
    else if token = "jwt-bob" then some (decodedFor "bob")
    else if token = "jwt-without-user" then some (.obj [("iat", .num "1700000000")])
    else if token = "jwt-string-user" then some (.obj [("user", .str "abc")])
    else none
  parse := fun message =>
    if message = rawOfferAsMallory then
      some (frameOf "offer"
        (payloadTo (.str "bob") [("sdp", .str "v=0"), ("senderId", .str "mallory")]))
    else if message = rawOfferAsEve then
      some (frameOf "offer"
        (payloadTo (.str "bob") [("sdp", .str "v=0"), ("senderId", .str "eve")]))
    else if message = rawOfferToAlice then
      some (frameOf "offer" (payloadTo (.str "alice") [("sdp", .str "v=0")]))
    else if message = rawOfferToCarol then
      some (frameOf "offer" (payloadTo (.str "carol") [("sdp", .str "v=0")]))
    else if message = rawOfferToObject then
      some (frameOf "offer" (payloadTo (.obj [("toString", .num "1")]) []))
    else if message = rawCallAlice then
      some (frameOf "call-user" (payloadTo (.str "alice") [("callType", .str "video")]))
    else if message = rawCallBob then
      some (frameOf "call-user" (payloadTo (.str "bob") [("callType", .str "")]))
    else if message = rawCallCarol then
      some (frameOf "call-user" (payloadTo (.str "carol") []))
    else if message = rawCallObject then
      some (frameOf "call-user" (payloadTo (.obj [("toString", .num "1")]) []))
    else if message = rawPresenceActive then
      some (frameOf "update-presence" (.obj [("status", .str "active")]))
    else if message = rawPingBob then
      some (frameOf "ping" (payloadTo (.str "bob") []))
    else if message = rawObjectType then
      some (.obj [("type", .obj [("toString", .num "1")])])
    else none

/-- The first socket, connected as alice. -/
def aliceOnline : Server :=
  onConnection demoEnv emptyServer 1 (some "jwt-alice")

/-- Alice on socket 1 and bob on socket 2. -/
def bothOnline : Server :=
  onConnection demoEnv aliceOnline 2 (some "jwt-bob")

/-- Alice connected on socket 1 and then again on socket 3. -/
def aliceTwice : Server :=
  onConnection demoEnv aliceOnline 3 (some "jwt-alice")

/-- Alice connected on socket 1 and then again on socket 3, as events: both
sockets are open members of `wss.clients`, and her two `online` writes are
outstanding. -/
def aliceTwiceLive : Server :=
  run demoEnv emptyServer
    [.connection 1 (some "jwt-alice"), .connection 3 (some "jwt-alice")]

/-- Bob connected on socket 2, with his `online` write settled. -/
def bobWatching : Server :=
  run demoEnv emptyServer
    [.connection 2 (some "jwt-bob"),
     .settled 0 (.updated (.str "bob") (.str "online") "2024-01-01T10:00:00.000Z")]

/-- Alice connects on socket 1 and closes it at once, so that her `online`
and her `offline` write are outstanding together; the `offline` write (number
1) settles first, the `online` write (number 0) after it.  Both succeed. -/
def hastyCycle : List Event :=
  [.connection 1 (some "jwt-alice"),
   .close 1,
   .settled 1 (.updated (.str "alice") (.str "offline") "2024-01-01T10:00:02.000Z"),
   .settled 0 (.updated (.str "alice") (.str "online") "2024-01-01T10:00:01.000Z")]

/-- A database in which every call of `sendMessage` succeeds and the
message read back is `{"content":"hi"}`. -/
def chatDbOk : ChatDb :=
  { conversation := some (.obj [("_id", .str "conv1")]),
    messageSaved := true,
    conversationSaved := true,
    populatedMessage := some (.obj [("content", .str "hi")]) }

/-- The request body `{"receiverId":"bob","content":"hi"}`. -/
def bodyToBob : JsVal :=
  .obj [("receiverId", .str "bob"), ("content", .str "hi")]

/-- A users collection in which bob has published a bundle with the two
one-time pre-keys 7 and 8. -/
def demoUsers : Users := fun id =>
  if id = "bob" then
    some { id := .str "bob", identityKey := .str "ab12", registrationId := .num "42",
           signedPreKey := .obj [("keyId", .num "1"), ("publicKey", .str "cd34"),
             ("signature", .str "ef56")],
           oneTimePreKeys := [.obj [("keyId", .num "7"), ("publicKey", .str "0a")],
             .obj [("keyId", .num "8"), ("publicKey", .str "0b")]] }
  else none

/-- The body `{"identityKey":"ab12","registrationId":0,"signedPreKey":{"keyId":k,"publicKey":"cd34","signature":"ef56"}}`
of a `publishKeys` request, for the number whose text is `keyId`. -/
def bundleBody (keyId : String) : JsVal :=
  .obj [("identityKey", .str "ab12"), ("registrationId", .num "0"),
    ("signedPreKey", .obj [("keyId", .num keyId), ("publicKey", .str "cd34"),
      ("signature", .str "ef56")])]

/-- What follows alice's connect on socket 1 in a cycle watched by bob on
socket 2: bob calls her and sends an `update-presence`, bob connects again
on socket 3, alice's `online` write settles, bob's `active` write settles,
socket 1 closes, bob's socket 3 closes, and alice's `offline` write
settles. -/
def busyCycleRest : List Event :=
  [.message 2 rawCallAlice,
   .message 2 rawPresenceActive,
   .connection 3 (some "jwt-bob"),
   .settled 0 (.updated (.str "alice") (.str "online") "2024-01-01T10:00:01.000Z"),
   .settled 0 (.updated (.str "bob") (.str "active") "2024-01-01T10:00:01.500Z"),
   .close 1,
   .close 3,
   .settled 1 (.updated (.str "alice") (.str "offline") "2024-01-01T10:00:02.000Z")]

/-- Alice connected and closed socket 1 with bob watching on socket 2; her
`online` write has settled, her `offline` write is still outstanding. -/
def aliceLeft : Server :=
  run demoEnv bobWatching
    [.connection 1 (some "jwt-alice"),
     .settled 0 (.updated (.str "alice") (.str "online") "2024-01-01T10:00:01.000Z"),
     .close 1]

/-- What follows alice's next connect, on socket 5, when the `offline`
write of her earlier connection (number 0) settles inside the new cycle,
after the new `online` write (number 1) and before socket 5 closes. -/
def leftoverCycleRest : List Event :=
  [.settled 1 (.updated (.str "alice") (.str "online") "2024-01-01T10:00:03.000Z"),
   .settled 0 (.updated (.str "alice") (.str "offline") "2024-01-01T10:00:02.000Z"),
   .close 5,
   .settled 0 (.updated (.str "alice") (.str "offline") "2024-01-01T10:00:04.000Z")]

/-! ## The registry as a Map -/

theorem mapGet_mapSet_self (m : List (MapKey × Handle)) (key : MapKey) (h : Handle) :
    mapGet (mapSet m key h) key = some h := by
  induction m with
  | nil => simp [mapSet, mapGet]
  | cons e rest ih =>
    obtain ⟨k, h0⟩ := e
    by_cases hk : k = key
    · simp [mapSet, mapGet, hk]
    · simp [mapSet, mapGet, hk, ih]

theorem mapGet_mapSet_other (m : List (MapKey × Handle)) (key other : MapKey) (h : Handle)
    (hne : other ≠ key) : mapGet (mapSet m key h) other = mapGet m other := by
  induction m with
  | nil =>
    have : ¬ key = other := fun e => hne e.symm
    simp [mapSet, mapGet, this]
  | cons e rest ih =>
    obtain ⟨k, h0⟩ := e
    by_cases hk : k = key
    · have : ¬ key = other := fun e => hne e.symm
      simp [mapSet, mapGet, hk, this]
    · by_cases hko : k = other
      · subst hko
        simp [mapSet, mapGet, hne]
      · simp [mapSet, mapGet, hk, hko, ih]

theorem mapGet_mapDelete_self (m : List (MapKey × Handle)) (key : MapKey) :
    mapGet (mapDelete m key) key = none := by
  induction m with
  | nil => simp [mapDelete, mapGet]
  | cons e rest ih =>
    obtain ⟨k, h0⟩ := e
    by_cases hk : k = key
    · simpa [mapDelete, List.filter_cons, hk] using ih
    · simpa [mapDelete, List.filter_cons, hk, mapGet] using ih

theorem mapGet_mapDelete_other (m : List (MapKey × Handle)) (key other : MapKey)
    (hne : other ≠ key) : mapGet (mapDelete m key) other = mapGet m other := by
  induction m with
  | nil => simp [mapDelete, mapGet]
  | cons e rest ih =>
    obtain ⟨k, h0⟩ := e
    by_cases hk : k = key
    · subst hk
      have hko : ¬ k = other := fun e => hne e.symm
      simpa [mapDelete, List.filter_cons, mapGet, hko] using ih
    · by_cases hko : k = other
      · subst hko
        simp [mapDelete, List.filter_cons, mapGet, hne]
      · simpa [mapDelete, List.filter_cons, hk, mapGet, hko] using ih

/-! ## Object literals -/

theorem lookupProp_setProp_self (props : List (String × JsVal)) (key : String) (v : JsVal) :
    lookupProp (setProp props key v) key = v := by
  induction props with
  | nil => simp [setProp, lookupProp]
  | cons e rest ih =>
    obtain ⟨k, w⟩ := e
    by_cases hk : k = key
    · simp [setProp, lookupProp, hk]
    · simp [setProp, lookupProp, hk, ih]

theorem lookupProp_setProp_other (props : List (String × JsVal)) (key other : String)
    (v : JsVal) (hne : other ≠ key) :
    lookupProp (setProp props key v) other = lookupProp props other := by
  induction props with
  | nil =>
    have : ¬ key = other := fun e => hne e.symm
    simp [setProp, lookupProp, this]
  | cons e rest ih =>
    obtain ⟨k, w⟩ := e
    by_cases hk : k = key
    · have : ¬ key = other := fun e => hne e.symm
      simp [setProp, lookupProp, hk, this]
    · by_cases hko : k = other
      · subst hko
        simp [setProp, lookupProp, hne]
      · simp [setProp, lookupProp, hk, hko, ih]

theorem setProp_setProp (props : List (String × JsVal)) (key : String) (v w : JsVal) :
    setProp (setProp props key v) key w = setProp props key w := by
  induction props with
  | nil => simp [setProp]
  | cons e rest ih =>
    obtain ⟨k, u⟩ := e
    by_cases hk : k = key
    · simp [setProp, hk]
    · simp [setProp, hk, ih]

/-! ## What the message listener leaves alone -/

theorem updatePresence_fixed (s : Server) (senderId payload : JsVal) :
    (updatePresence s senderId payload).userConnections = s.userConnections ∧
    (updatePresence s senderId payload).sockets = s.sockets ∧
    (updatePresence s senderId payload).clients = s.clients ∧
    (updatePresence s senderId payload).terminated = s.terminated := by
  unfold updatePresence
  split <;> simp [updateAndBroadcastPresence]

theorem callUser_fixed (s s1 : Server) (ws : Handle) (senderId targetUserId callType : JsVal)
    (targetWs : Option Handle)
    (h : callUser s ws senderId targetUserId callType targetWs = some s1) :
    s1.userConnections = s.userConnections ∧ s1.sockets = s.sockets ∧
    s1.clients = s.clients ∧ s1.terminated = s.terminated := by
  unfold callUser at h
  split at h
  · split at h
    · cases h; simp [Server.send]
    · cases h
  · split at h
    · cases h; simp [Server.send]
    · cases h

theorem relay_fixed (s s1 : Server) (type payload senderId targetUserId : JsVal)
    (targetWs : Option Handle)
    (h : relay s type payload senderId targetUserId targetWs = some s1) :
    s1.userConnections = s.userConnections ∧ s1.sockets = s.sockets ∧
    s1.clients = s.clients ∧ s1.terminated = s.terminated := by
  unfold relay at h
  split at h
  · split at h
    · cases h; simp [Server.send]
    · cases h
  · split at h
    · cases h; simp
    · cases h

theorem routeMessage_fixed (s s1 : Server) (ws : Handle) (type payload : JsVal)
    (h : routeMessage s ws type payload = some s1) :
    s1.userConnections = s.userConnections ∧ s1.sockets = s.sockets ∧
    s1.clients = s.clients ∧ s1.terminated = s.terminated := by
  unfold routeMessage at h
  simp only at h
  split at h
  · cases h; exact updatePresence_fixed _ _ _
  · split at h
    · exact callUser_fixed _ _ _ _ _ _ _ h
    · split at h
      · exact relay_fixed _ _ _ _ _ _ _ h
      · split at h
        · exact relay_fixed _ _ _ _ _ _ _ h
        · cases h; simp [Server.send]

theorem handleMessage_fixed (env : Env) (s s1 : Server) (ws : Handle) (message : String)
    (h : handleMessage env s ws message = some s1) :
    s1.userConnections = s.userConnections ∧ s1.sockets = s.sockets ∧
    s1.clients = s.clients ∧ s1.terminated = s.terminated := by
  unfold handleMessage at h
  split at h
  · cases h
  · split at h
    · split at h
      · exact routeMessage_fixed _ _ _ _ _ h
      · cases h
    · cases h

theorem onMessage_fixed (env : Env) (s : Server) (ws : Handle) (message : String) :
    (onMessage env s ws message).userConnections = s.userConnections ∧
    (onMessage env s ws message).sockets = s.sockets ∧
    (onMessage env s ws message).clients = s.clients ∧
    (onMessage env s ws message).terminated = s.terminated := by
  unfold onMessage
  split
  · next s1 h => exact handleMessage_fixed env s s1 ws message h
  · simp [Server.send]

/-! ## The message listener on a parsed frame -/

theorem fields_get (payload : JsVal) (key : String) :
    (if payload.truthy then payload else JsVal.obj []).get key = payload.get key := by
  by_cases h : payload.truthy = true
  · simp [h]
  · cases payload <;> simp_all [JsVal.truthy, JsVal.get, lookupProp]

theorem onMessage_routed (env : Env) (s : Server) (ws : Handle) (raw shownType shownSender : String)
    (parsed type payload : JsVal) (hparse : env.parse raw = some parsed)
    (htype : parsed.member? "type" = some type)
    (hpayload : parsed.member? "payload" = some payload)
    (hshowT : type.toStr = some shownType)
    (hshowS : ((s.sockets ws).userId).toStr = some shownSender) :
    onMessage env s ws raw =
      match routeMessage s ws type payload with
      | some s1 => s1
      | none => s.send ws (errorFrame "Invalid message format") := by
  simp [onMessage, handleMessage, hparse, htype, hpayload, hshowT, hshowS]

theorem lookup_str (s : Server) (B : String) :
    s.lookup (.str B) = mapGet s.userConnections (.str B) := by
  simp [Server.lookup, freshKey]

theorem isStr_forwardable (ty : String) (hty : ty ∈ forwardable) :
    (JsVal.str ty).isStr "update-presence" = false ∧ (JsVal.str ty).isStr "call-user" = false ∧
    (((JsVal.str ty).isStr "offer" || (JsVal.str ty).isStr "answer"
        || (JsVal.str ty).isStr "ice-candidate") = true ∨
      ((JsVal.str ty).isStr "call-accepted" || (JsVal.str ty).isStr "call-rejected"
        || (JsVal.str ty).isStr "call-ended") = true) := by
  simp only [forwardable, List.mem_cons, List.mem_singleton, List.not_mem_nil, or_false] at hty
  rcases hty with h | h | h | h | h | h <;> subst h <;> simp [JsVal.isStr]

theorem routeMessage_forwardable (s : Server) (ws : Handle) (ty : String) (payload : JsVal)
    (hty : ty ∈ forwardable) :
    routeMessage s ws (.str ty) payload =
      relay s (.str ty) payload (s.sockets ws).userId (payload.get "targetUserId")
        (if (payload.get "targetUserId").truthy then s.lookup (payload.get "targetUserId")
          else none) := by
  obtain ⟨h1, h2, h3⟩ := isStr_forwardable ty hty
  unfold routeMessage
  simp only [fields_get, h1, h2]
  rcases h3 with h3 | h3
  · simp [h3]
  · by_cases h4 : ((JsVal.str ty).isStr "offer" || (JsVal.str ty).isStr "answer"
        || (JsVal.str ty).isStr "ice-candidate") = true
    · simp [h4]
    · simp [h4, h3]

theorem routeMessage_callUser (s : Server) (ws : Handle) (payload : JsVal) :
    routeMessage s ws (.str "call-user") payload =
      callUser s ws (s.sockets ws).userId (payload.get "targetUserId") (payload.get "callType")
        (if (payload.get "targetUserId").truthy then s.lookup (payload.get "targetUserId")
          else none) := by
  unfold routeMessage
  simp [fields_get, JsVal.isStr]

theorem routeMessage_updatePresence (s : Server) (ws : Handle) (payload : JsVal) :
    routeMessage s ws (.str "update-presence") payload =
      some (updatePresence s (s.sockets ws).userId payload) := by
  unfold routeMessage
  simp [JsVal.isStr]

/-! ## The frames one `message` event can send -/

theorem callUser_sent (s s1 : Server) (ws : Handle) (senderId targetUserId callType : JsVal)
    (targetWs : Option Handle)
    (h : callUser s ws senderId targetUserId callType targetWs = some s1) :
    (∃ target, s1.sent = s.sent ++ [(target, incomingCallFrame senderId callType)]) ∨
    (∃ text, s1.sent = s.sent ++ [(ws, callErrorFrame text)]) := by
  unfold callUser at h
  split at h
  · next target _ =>
    split at h
    · cases h; exact Or.inl ⟨target, rfl⟩
    · cases h
  · split at h
    · next shown _ => cases h; exact Or.inr ⟨_, rfl⟩
    · cases h

theorem relay_sent (s s1 : Server) (type payload senderId targetUserId : JsVal)
    (targetWs : Option Handle)
    (h : relay s type payload senderId targetUserId targetWs = some s1) :
    s1.sent = s.sent ∨
    (∃ target, s1.sent = s.sent ++ [(target, forwardFrame type payload senderId)]) := by
  unfold relay at h
  split at h
  · next target _ =>
    split at h
    · cases h; exact Or.inr ⟨target, rfl⟩
    · cases h
  · split at h
    · cases h; exact Or.inl rfl
    · cases h

theorem isStr_eq (v : JsVal) (lit : String) (h : v.isStr lit = true) : v = .str lit := by
  cases v <;> simp_all [JsVal.isStr]

theorem isStr_false_of_ne (v : JsVal) (lit : String) (h : v ≠ .str lit) :
    v.isStr lit = false := by
  cases hv : v <;> simp [JsVal.isStr]
  intro hh; subst hh; exact h hv

theorem routeMessage_sent (s s1 : Server) (ws : Handle) (type payload : JsVal)
    (h : routeMessage s ws type payload = some s1) :
    s1.sent = s.sent ∨
    s1.sent = s.sent ++ [(ws, errorFrame "Unknown message type")] ∨
    (∃ text, s1.sent = s.sent ++ [(ws, callErrorFrame text)]) ∨
    (∃ target callType,
      s1.sent = s.sent ++ [(target, incomingCallFrame (s.sockets ws).userId callType)]) ∨
    (∃ target ty, ty ∈ forwardable ∧
      s1.sent = s.sent ++ [(target, forwardFrame (.str ty) payload (s.sockets ws).userId)]) := by
  unfold routeMessage at h
  simp only at h
  split at h
  · cases h
    left
    unfold updatePresence
    split <;> simp [updateAndBroadcastPresence]
  · split at h
    · rcases callUser_sent _ _ _ _ _ _ _ h with ⟨target, ht⟩ | ⟨text, ht⟩
      · exact Or.inr (Or.inr (Or.inr (Or.inl ⟨target, _, ht⟩)))
      · exact Or.inr (Or.inr (Or.inl ⟨text, ht⟩))
    · split at h
      · next hty =>
        rcases relay_sent _ _ _ _ _ _ _ h with ht | ⟨target, ht⟩
        · exact Or.inl ht
        · right; right; right; right
          simp only [Bool.or_eq_true] at hty
          rcases hty with (hty | hty) | hty <;>
            · have := isStr_eq _ _ hty
              subst this
              exact ⟨target, _, by simp [forwardable], ht⟩
      · split at h
        · next hty =>
          rcases relay_sent _ _ _ _ _ _ _ h with ht | ⟨target, ht⟩
          · exact Or.inl ht
          · right; right; right; right
            simp only [Bool.or_eq_true] at hty
            rcases hty with (hty | hty) | hty <;>
              · have := isStr_eq _ _ hty
                subst this
                exact ⟨target, _, by simp [forwardable], ht⟩
        · cases h; exact Or.inr (Or.inl rfl)

theorem onMessage_sent (env : Env) (s : Server) (ws : Handle) (raw : String) :
    (onMessage env s ws raw).sent = s.sent ∨
    (onMessage env s ws raw).sent = s.sent ++ [(ws, errorFrame "Invalid message format")] ∨
    (onMessage env s ws raw).sent = s.sent ++ [(ws, errorFrame "Unknown message type")] ∨
    (∃ text, (onMessage env s ws raw).sent = s.sent ++ [(ws, callErrorFrame text)]) ∨
    (∃ target callType, (onMessage env s ws raw).sent
      = s.sent ++ [(target, incomingCallFrame (s.sockets ws).userId callType)]) ∨
    (∃ target ty payload, ty ∈ forwardable ∧ (onMessage env s ws raw).sent
      = s.sent ++ [(target, forwardFrame (.str ty) payload (s.sockets ws).userId)]) := by
  unfold onMessage
  split
  · next s1 h =>
    unfold handleMessage at h
    split at h
    · cases h
    · split at h
      · split at h
        · rcases routeMessage_sent _ _ _ _ _ h with h1 | h1 | h1 | h1 | ⟨target, ty, hty, h1⟩
          · exact Or.inl h1
          · exact Or.inr (Or.inr (Or.inl h1))
          · exact Or.inr (Or.inr (Or.inr (Or.inl h1)))
          · exact Or.inr (Or.inr (Or.inr (Or.inr (Or.inl h1))))
          · exact Or.inr (Or.inr (Or.inr (Or.inr (Or.inr ⟨target, ty, _, hty, h1⟩))))
        · cases h
      · cases h
  · exact Or.inr (Or.inl rfl)

theorem routeMessage_senderId_irrelevant (s : Server) (ws : Handle) (type : JsVal)
    (props : List (String × JsVal)) (v1 v2 : JsVal) :
    routeMessage s ws type (.obj (setProp props "senderId" v1))
      = routeMessage s ws type (.obj (setProp props "senderId" v2)) := by
  have hget : ∀ key, key ≠ "senderId" →
      (JsVal.obj (setProp props "senderId" v1)).get key
        = (JsVal.obj (setProp props "senderId" v2)).get key := by
    intro key hkey
    simp [JsVal.get, lookupProp_setProp_other _ _ _ _ hkey]
  have hfwd : ∀ senderId, forwardFrame type (.obj (setProp props "senderId" v1)) senderId
      = forwardFrame type (.obj (setProp props "senderId" v2)) senderId := by
    intro senderId
    simp [forwardFrame, spread, setProp_setProp]
  unfold routeMessage updatePresence relay
  simp only [JsVal.truthy, if_true, hget "targetUserId" (by decide),
    hget "callType" (by decide), hget "status" (by decide), hfwd]

/-! ## Connecting and closing -/

theorem onConnection_accepted (env : Env) (s : Server) (ws : Handle) (t U : String)
    (decoded : JsVal) (ht : t ≠ "") (hv : env.verify t = some decoded)
    (hid : (decoded.member? "user").bind (fun user => user.member? "id") = some (.str U)) :
    onConnection env s ws (some t) =
      { s with
        userConnections := mapSet s.userConnections (.str U) ws
        sockets := Function.update s.sockets ws
          { s.sockets ws with userId := .str U, listening := true }
        presenceWrites := s.presenceWrites ++ [(.str U, "online")] } := by
  simp [onConnection, ht, hv, hid, keyOf, JsVal.toStr, updateAndBroadcastPresence]

theorem onClose_authenticated (s : Server) (ws : Handle) (U : String) (hU : U ≠ "")
    (hid : (s.sockets ws).userId = .str U) :
    onClose s ws =
      { s with
        userConnections := mapDelete s.userConnections (.str U)
        presenceWrites := s.presenceWrites ++ [(.str U, "offline")] } := by
  simp [onClose, hid, JsVal.truthy, hU, keyOf, JsVal.toStr, updateAndBroadcastPresence]

/-- Any sequence of `message` events, each a socket with a raw frame, leaves
the registry and the socket objects as they were. -/
theorem foldl_onMessage_fixed (env : Env) (frames : List (Handle × String)) (s : Server) :
    (frames.foldl (fun st f => onMessage env st f.1 f.2) s).userConnections = s.userConnections ∧
    (frames.foldl (fun st f => onMessage env st f.1 f.2) s).sockets = s.sockets := by
  induction frames generalizing s with
  | nil => simp
  | cons f rest ih =>
    obtain ⟨h1, h2⟩ := ih (onMessage env s f.1 f.2)
    obtain ⟨g1, g2, _, _⟩ := onMessage_fixed env s f.1 f.2
    simp only [List.foldl_cons]
    exact ⟨h1.trans g1, h2.trans g2⟩

/-! ## C1 -/

/-- C1, counterexample: alice connects on socket 1 and again on socket 3, so
the registry maps alice to socket 3; the close event of the superseded
socket 1 then leaves no entry for alice, although the stored handle was not
the one closing. -/
theorem C1_stale_close_evicts_newer :
    mapGet aliceTwice.userConnections (.str "alice") = some 3 ∧
    (1 : Handle) ≠ 3 ∧
    mapGet (onClose aliceTwice 1).userConnections (.str "alice") ≠ some 3 := by
  decide

/-- C1, amended: for every non-empty user id U and distinct sockets h1, h2,
after U connects on h1 and then on h2 the registry maps U to h2, and the
close event of the superseded h1 removes the entry of U whatever handle is
stored (lookup of U gives no entry), leaving every other entry as it was
before the two connects. -/
theorem C1_close_removes_entry_of_user (env : Env) (s : Server) (U t1 t2 : String)
    (d1 d2 : JsVal) (h1 h2 : Handle) (hU : U ≠ "") (hh : h1 ≠ h2)
    (ht1 : t1 ≠ "") (hv1 : env.verify t1 = some d1)
    (hid1 : (d1.member? "user").bind (fun user => user.member? "id") = some (.str U))
    (ht2 : t2 ≠ "") (hv2 : env.verify t2 = some d2)
    (hid2 : (d2.member? "user").bind (fun user => user.member? "id") = some (.str U)) :
    mapGet (onConnection env (onConnection env s h1 (some t1)) h2 (some t2)).userConnections
        (.str U) = some h2 ∧
    mapGet (onClose (onConnection env (onConnection env s h1 (some t1)) h2 (some t2))
        h1).userConnections (.str U) = none ∧
    ∀ key, key ≠ .str U →
      mapGet (onClose (onConnection env (onConnection env s h1 (some t1)) h2 (some t2))
        h1).userConnections key = mapGet s.userConnections key := by
  rw [onConnection_accepted env _ h2 t2 U d2 ht2 hv2 hid2,
    onConnection_accepted env s h1 t1 U d1 ht1 hv1 hid1]
  have hsock : (Function.update (Function.update s.sockets h1
      { s.sockets h1 with userId := .str U, listening := true }) h2
      { (Function.update s.sockets h1
          { s.sockets h1 with userId := .str U, listening := true }) h2 with
        userId := .str U, listening := true } h1).userId = .str U := by
    simp [Function.update, hh]
  refine ⟨mapGet_mapSet_self _ _ _, ?_, ?_⟩
  · rw [onClose_authenticated _ h1 U hU hsock]
    exact mapGet_mapDelete_self _ _
  · intro key hkey
    rw [onClose_authenticated _ h1 U hU hsock]
    simp only
    rw [mapGet_mapDelete_other _ _ _ hkey, mapGet_mapSet_other _ _ _ _ hkey,
      mapGet_mapSet_other _ _ _ _ hkey]

/-- C1, amended, on alice with sockets 1 and 3. -/
theorem C1_close_removes_entry_of_user_witness :
    mapGet aliceTwice.userConnections (.str "alice") = some 3 ∧
    mapGet (onClose aliceTwice 1).userConnections (.str "alice") = none ∧
    ∀ key, key ≠ .str "alice" →
      mapGet (onClose aliceTwice 1).userConnections key = mapGet emptyServer.userConnections key :=
  C1_close_removes_entry_of_user demoEnv emptyServer "alice" "jwt-alice" "jwt-alice"
    (decodedFor "alice") (decodedFor "alice") 1 3 (by decide) (by decide)
    (by decide) rfl rfl (by decide) rfl rfl

/-! ## C2 -/

/-- C2: for every non-empty user id U, once a connection presenting a valid
token for U is accepted on socket h the registry maps U to h, and it still
does after any `message` events on any sockets; after the close event of h
the registry has no entry for U.  The entries of all other keys are the same
before the connect, while connected, and after the close. -/
theorem C2_lookup_after_connect_and_close (env : Env) (s : Server) (U t : String)
    (decoded : JsVal) (h : Handle) (frames : List (Handle × String)) (hU : U ≠ "")
    (ht : t ≠ "") (hv : env.verify t = some decoded)
    (hid : (decoded.member? "user").bind (fun user => user.member? "id") = some (.str U)) :
    mapGet (onConnection env s h (some t)).userConnections (.str U) = some h ∧
    mapGet (frames.foldl (fun st f => onMessage env st f.1 f.2)
        (onConnection env s h (some t))).userConnections (.str U) = some h ∧
    mapGet (onClose (frames.foldl (fun st f => onMessage env st f.1 f.2)
        (onConnection env s h (some t))) h).userConnections (.str U) = none ∧
    ∀ key, key ≠ .str U →
      mapGet (onConnection env s h (some t)).userConnections key
        = mapGet s.userConnections key ∧
      mapGet (frames.foldl (fun st f => onMessage env st f.1 f.2)
        (onConnection env s h (some t))).userConnections key = mapGet s.userConnections key ∧
      mapGet (onClose (frames.foldl (fun st f => onMessage env st f.1 f.2)
        (onConnection env s h (some t))) h).userConnections key
        = mapGet s.userConnections key := by
  obtain ⟨hreg, hsock⟩ := foldl_onMessage_fixed env frames (onConnection env s h (some t))
  have hacc := onConnection_accepted env s h t U decoded ht hv hid
  have hconn : (onConnection env s h (some t)).userConnections
      = mapSet s.userConnections (.str U) h := by rw [hacc]
  have huid : ((frames.foldl (fun st f => onMessage env st f.1 f.2)
      (onConnection env s h (some t))).sockets h).userId = .str U := by
    rw [hsock, hacc]; simp
  have hclose := onClose_authenticated _ h U hU huid
  refine ⟨?_, ?_, ?_, ?_⟩
  · rw [hconn]; exact mapGet_mapSet_self _ _ _
  · rw [hreg, hconn]; exact mapGet_mapSet_self _ _ _
  · rw [hclose]; exact mapGet_mapDelete_self _ _
  · intro key hkey
    refine ⟨?_, ?_, ?_⟩
    · rw [hconn]; exact mapGet_mapSet_other _ _ _ _ hkey
    · rw [hreg, hconn]; exact mapGet_mapSet_other _ _ _ _ hkey
    · rw [hclose]
      simp only
      rw [mapGet_mapDelete_other _ _ _ hkey, hreg, hconn]
      exact mapGet_mapSet_other _ _ _ _ hkey

/-- C2 on alice's first connection, with one unparseable frame received in
between. -/
theorem C2_lookup_after_connect_and_close_witness :
    mapGet aliceOnline.userConnections (.str "alice") = some 1 ∧
    mapGet ([((1 : Handle), "not json")].foldl (fun st f => onMessage demoEnv st f.1 f.2)
        aliceOnline).userConnections (.str "alice") = some 1 ∧
    mapGet (onClose ([((1 : Handle), "not json")].foldl
        (fun st f => onMessage demoEnv st f.1 f.2) aliceOnline) 1).userConnections
        (.str "alice") = none ∧
    ∀ key, key ≠ .str "alice" →
      mapGet aliceOnline.userConnections key = mapGet emptyServer.userConnections key ∧
      mapGet ([((1 : Handle), "not json")].foldl (fun st f => onMessage demoEnv st f.1 f.2)
        aliceOnline).userConnections key = mapGet emptyServer.userConnections key ∧
      mapGet (onClose ([((1 : Handle), "not json")].foldl
        (fun st f => onMessage demoEnv st f.1 f.2) aliceOnline) 1).userConnections key
        = mapGet emptyServer.userConnections key :=
  C2_lookup_after_connect_and_close demoEnv emptyServer "alice" "jwt-alice"
    (decodedFor "alice") 1 [(1, "not json")] (by decide) (by decide) rfl rfl

/-! ## C3 -/

/-- C3, counterexample: a token that verifies to the body `{"user":"abc"}`,
which has no user object.  `decoded.user.id` is `undefined` and nothing
throws: the socket is not terminated, the registry gets an entry under the
key `undefined`, and a presence write is issued. -/
theorem C3_string_user_is_accepted :
    demoEnv.verify "jwt-string-user" = some (.obj [("user", .str "abc")]) ∧
    emptyServer.userConnections = [] ∧
    (onConnection demoEnv emptyServer 5 (some "jwt-string-user")).terminated = [] ∧
    (onConnection demoEnv emptyServer 5 (some "jwt-string-user")).userConnections
      = [(.undefined, 5)] ∧
    (onConnection demoEnv emptyServer 5 (some "jwt-string-user")).presenceWrites
      = [(.undefined, "online")] ∧
    ((onConnection demoEnv emptyServer 5 (some "jwt-string-user")).sockets 5).listening
      = true := by
  refine ⟨rfl, rfl, rfl, by decide, rfl, rfl⟩

/-- C3, amended: a connection attempt whose token is missing or empty, or
fails verification, or verifies to a body whose `user` is absent or null, is
terminated and nothing else happens: the registry, the outstanding presence
writes, the frames sent and the socket's listeners and user id are as
before. -/
theorem C3_refused_connection (env : Env) (s : Server) (ws : Handle) (token : Option String)
    (hbad : token = none ∨ token = some "" ∨
      (∃ t, token = some t ∧ env.verify t = none) ∨
      (∃ t decoded, token = some t ∧ env.verify t = some decoded ∧
        (decoded.get "user" = .undefined ∨ decoded.get "user" = .null))) :
    onConnection env s ws token = s.terminate ws ∧
    ws ∈ (onConnection env s ws token).terminated ∧
    (onConnection env s ws token).userConnections = s.userConnections ∧
    (onConnection env s ws token).presenceWrites = s.presenceWrites ∧
    (onConnection env s ws token).sent = s.sent ∧
    ((onConnection env s ws token).sockets ws).listening = (s.sockets ws).listening ∧
    ((onConnection env s ws token).sockets ws).userId = (s.sockets ws).userId := by
  have key : onConnection env s ws token = s.terminate ws := by
    rcases hbad with h | h | ⟨t, h, hv⟩ | ⟨t, decoded, h, hv, hu⟩
    · subst h; rfl
    · subst h; simp [onConnection]
    · subst h
      by_cases ht : t = ""
      · simp [onConnection, ht]
      · simp [onConnection, ht, hv]
    · subst h
      by_cases ht : t = ""
      · simp [onConnection, ht]
      · have hnone : (decoded.member? "user").bind (fun user => user.member? "id") = none := by
          cases decoded with
          | obj props =>
            rcases hu with hu | hu <;>
              simp [JsVal.get] at hu <;> simp [JsVal.member?, hu]
          | undefined => simp [JsVal.member?]
          | null => simp [JsVal.member?]
          | bool b => simp [JsVal.member?]
          | num text => simp [JsVal.member?]
          | str v => simp [JsVal.member?]
          | arr items => simp [JsVal.member?]
        simp [onConnection, ht, hv, hnone]
  rw [key]
  simp [Server.terminate]

/-- C3, amended, on a token that verifies to a body without `user`. -/
theorem C3_refused_connection_witness :
    onConnection demoEnv aliceOnline 5 (some "jwt-without-user") = aliceOnline.terminate 5 ∧
    5 ∈ (onConnection demoEnv aliceOnline 5 (some "jwt-without-user")).terminated ∧
    (onConnection demoEnv aliceOnline 5 (some "jwt-without-user")).userConnections
      = aliceOnline.userConnections ∧
    (onConnection demoEnv aliceOnline 5 (some "jwt-without-user")).presenceWrites
      = aliceOnline.presenceWrites ∧
    (onConnection demoEnv aliceOnline 5 (some "jwt-without-user")).sent = aliceOnline.sent ∧
    ((onConnection demoEnv aliceOnline 5 (some "jwt-without-user")).sockets 5).listening
      = (aliceOnline.sockets 5).listening ∧
    ((onConnection demoEnv aliceOnline 5 (some "jwt-without-user")).sockets 5).userId
      = (aliceOnline.sockets 5).userId :=
  C3_refused_connection demoEnv aliceOnline 5 (some "jwt-without-user")
    (Or.inr (Or.inr (Or.inr ⟨"jwt-without-user", .obj [("iat", .num "1700000000")],
      rfl, rfl, Or.inl rfl⟩)))

/-! ## C4 -/

/-- C4, counterexample: alice, connected on socket 1, sends an `offer` whose
`targetUserId` is alice, who is registered with the open socket 1; the one
frame goes to socket 1, so a frame is sent to the sender. -/
theorem C4_offer_to_self_reaches_sender :
    (aliceOnline.sockets 1).userId = .str "alice" ∧
    demoEnv.parse rawOfferToAlice
      = some (frameOf "offer" (payloadTo (.str "alice") [("sdp", .str "v=0")])) ∧
    mapGet aliceOnline.userConnections (.str "alice") = some 1 ∧
    (aliceOnline.sockets 1).readyState = .OPEN ∧
    aliceOnline.sent = [] ∧
    (onMessage demoEnv aliceOnline 1 rawOfferToAlice).sent
      = [(1, .obj [("type", .str "offer"),
          ("payload", .obj [("targetUserId", .str "alice"), ("sdp", .str "v=0"),
            ("senderId", .str "alice")])])] := by
  refine ⟨rfl, rfl, by decide, by decide, rfl, rfl⟩

/-- C4, amended: for every sender A, every relayed type and every payload
whose `targetUserId` is a non-empty string B registered with an open socket,
exactly one frame is sent, on B's socket; it has the same type, and its
payload has `senderId` equal to A's id and every other field exactly as in
the original payload.  No frame is sent on any other socket (the sender's
socket gets the frame when it is B's registered socket), and nothing else
in the server changes. -/
theorem C4_relay_delivers_to_target (env : Env) (s : Server) (ws hB : Handle)
    (raw ty A B : String) (parsed payload : JsVal)
    (hparse : env.parse raw = some parsed)
    (htype : parsed.member? "type" = some (.str ty))
    (hpayload : parsed.member? "payload" = some payload)
    (hty : ty ∈ forwardable)
    (hA : (s.sockets ws).userId = .str A)
    (htarget : payload.get "targetUserId" = .str B) (hBne : B ≠ "")
    (hreg : mapGet s.userConnections (.str B) = some hB)
    (hopen : (s.sockets hB).readyState = .OPEN) :
    ∃ fields : List (String × JsVal),
      onMessage env s ws raw
        = { s with sent := s.sent ++ [(hB, .obj [("type", .str ty), ("payload", .obj fields)])] } ∧
      lookupProp fields "senderId" = .str A ∧
      ∀ key, key ≠ "senderId" → lookupProp fields key = payload.get key := by
  refine ⟨setProp (spread payload) "senderId" (.str A), ?_, ?_, ?_⟩
  · rw [onMessage_routed env s ws raw ty A parsed (.str ty) payload hparse htype hpayload rfl
        (by rw [hA]; rfl),
      routeMessage_forwardable s ws ty payload hty]
    simp [relay, htarget, JsVal.truthy, hBne, lookup_str, hreg, Server.openTarget, hopen,
      JsVal.toStr, hA, Server.send, forwardFrame]
  · exact lookupProp_setProp_self _ _ _
  · intro key hkey
    rw [lookupProp_setProp_other _ _ _ _ hkey]
    cases payload <;> simp [JsVal.get] at htarget ⊢
    simp [spread]

/-- C4, amended, on alice (socket 1) sending an offer to bob (socket 2). -/
theorem C4_relay_delivers_to_target_witness :
    ∃ fields : List (String × JsVal),
      onMessage demoEnv bothOnline 1 rawOfferAsMallory
        = { bothOnline with
            sent := bothOnline.sent
              ++ [(2, .obj [("type", .str "offer"), ("payload", .obj fields)])] } ∧
      lookupProp fields "senderId" = .str "alice" ∧
      ∀ key, key ≠ "senderId" → lookupProp fields key
        = (payloadTo (.str "bob") [("sdp", .str "v=0"), ("senderId", .str "mallory")]).get key :=
  C4_relay_delivers_to_target demoEnv bothOnline 1 2 rawOfferAsMallory "offer" "alice" "bob"
    (frameOf "offer" (payloadTo (.str "bob") [("sdp", .str "v=0"), ("senderId", .str "mallory")]))
    (payloadTo (.str "bob") [("sdp", .str "v=0"), ("senderId", .str "mallory")])
    rfl rfl rfl (by decide) rfl rfl (by decide) (by decide) (by decide)

/-! ## C5 -/

/-- C5: the sender identity on a relayed frame is the id the sending socket
was authenticated as.  For every raw frame received on socket `ws`, every
frame the listener sends whose type is one of the relayed types has payload
`senderId` equal to `ws.userId`, and every `incoming-call` frame has payload
`callerId` equal to `ws.userId`; and two frames of the same type whose
payloads differ only in the value of a client-supplied `senderId` leave the
server in the same state, hence produce the same forwarded frame. -/
theorem C5_sender_identity_from_connection (env : Env) (s : Server) (ws : Handle) :
    (∀ raw : String, ∃ new : List (Handle × JsVal),
      (onMessage env s ws raw).sent = s.sent ++ new ∧
      ∀ e ∈ new,
        (∀ ty ∈ forwardable, (e.2.get "type").isStr ty = true →
          (e.2.get "payload").get "senderId" = (s.sockets ws).userId) ∧
        ((e.2.get "type").isStr "incoming-call" = true →
          (e.2.get "payload").get "callerId" = (s.sockets ws).userId)) ∧
    (∀ (raw1 raw2 : String) (m1 m2 type : JsVal) (props : List (String × JsVal))
        (v1 v2 : JsVal),
      env.parse raw1 = some m1 → env.parse raw2 = some m2 →
      m1.member? "type" = some type → m2.member? "type" = some type →
      m1.member? "payload" = some (.obj (setProp props "senderId" v1)) →
      m2.member? "payload" = some (.obj (setProp props "senderId" v2)) →
      onMessage env s ws raw1 = onMessage env s ws raw2) := by
  constructor
  · intro raw
    rcases onMessage_sent env s ws raw with h | h | h | ⟨text, h⟩ | ⟨target, callType, h⟩
        | ⟨target, ty, payload, hty, h⟩
    · exact ⟨[], by simpa using h, by simp⟩
    · refine ⟨_, h, ?_⟩
      intro e he
      simp only [List.mem_singleton] at he
      subst he
      simp [errorFrame, JsVal.get, lookupProp, JsVal.isStr, forwardable]
    · refine ⟨_, h, ?_⟩
      intro e he
      simp only [List.mem_singleton] at he
      subst he
      simp [errorFrame, JsVal.get, lookupProp, JsVal.isStr, forwardable]
    · refine ⟨_, h, ?_⟩
      intro e he
      simp only [List.mem_singleton] at he
      subst he
      simp [callErrorFrame, JsVal.get, lookupProp, JsVal.isStr, forwardable]
    · refine ⟨_, h, ?_⟩
      intro e he
      simp only [List.mem_singleton] at he
      subst he
      simp [incomingCallFrame, JsVal.get, lookupProp, JsVal.isStr, forwardable]
    · refine ⟨_, h, ?_⟩
      intro e he
      simp only [List.mem_singleton] at he
      subst he
      refine ⟨?_, ?_⟩
      · intro _ _ _
        simp [forwardFrame, JsVal.get, lookupProp, lookupProp_setProp_self]
      · intro hcall
        simp only [forwardable, List.mem_cons, List.mem_singleton, List.not_mem_nil,
          or_false] at hty
        rcases hty with h | h | h | h | h | h <;> subst h <;>
          simp [forwardFrame, JsVal.get, lookupProp, JsVal.isStr] at hcall
  · intro raw1 raw2 m1 m2 type props v1 v2 hp1 hp2 ht1 ht2 hl1 hl2
    simp only [onMessage, handleMessage, hp1, hp2, ht1, ht2, hl1, hl2,
      routeMessage_senderId_irrelevant s ws type props v1 v2]

/-- C5 on alice (socket 1) sending bob an offer that claims to come from
mallory, and the same offer claiming to come from eve. -/
theorem C5_sender_identity_from_connection_witness :
    (∃ new : List (Handle × JsVal),
      (onMessage demoEnv bothOnline 1 rawOfferAsMallory).sent = bothOnline.sent ++ new ∧
      ∀ e ∈ new,
        (∀ ty ∈ forwardable, (e.2.get "type").isStr ty = true →
          (e.2.get "payload").get "senderId" = (bothOnline.sockets 1).userId) ∧
        ((e.2.get "type").isStr "incoming-call" = true →
          (e.2.get "payload").get "callerId" = (bothOnline.sockets 1).userId)) ∧
    onMessage demoEnv bothOnline 1 rawOfferAsMallory
      = onMessage demoEnv bothOnline 1 rawOfferAsEve :=
  ⟨(C5_sender_identity_from_connection demoEnv bothOnline 1).1 rawOfferAsMallory,
   (C5_sender_identity_from_connection demoEnv bothOnline 1).2 rawOfferAsMallory rawOfferAsEve
    (frameOf "offer" (payloadTo (.str "bob") [("sdp", .str "v=0"), ("senderId", .str "mallory")]))
    (frameOf "offer" (payloadTo (.str "bob") [("sdp", .str "v=0"), ("senderId", .str "eve")]))
    (.str "offer") [("targetUserId", .str "bob"), ("sdp", .str "v=0"), ("senderId", .null)]
    (.str "mallory") (.str "eve") rfl rfl rfl rfl rfl rfl⟩

/-! ## C6 -/

/-- C6, counterexample: bob, on socket 2, sends `call-user` with a
`targetUserId` that is the object `{"toString":1}`, which is not registered.
Building the text `User ${targetUserId} ...` throws, and the one frame bob
gets is the `error` frame of the `catch`, not a `call-error` frame. -/
theorem C6_unprintable_target_gets_format_error :
    (bothOnline.sockets 2).userId = .str "bob" ∧
    demoEnv.parse rawCallObject
      = some (frameOf "call-user" (payloadTo (.obj [("toString", .num "1")]) [])) ∧
    bothOnline.lookup (.obj [("toString", .num "1")]) = none ∧
    bothOnline.sent = [] ∧
    (onMessage demoEnv bothOnline 2 rawCallObject).sent
      = [(2, .obj [("type", .str "error"), ("message", .str "Invalid message format")])] ∧
    ∀ text, (onMessage demoEnv bothOnline 2 rawCallObject).sent
      ≠ [(2, .obj [("type", .str "call-error"), ("payload", .obj [("message", .str text)])])] := by
  refine ⟨rfl, rfl, rfl, rfl, rfl, ?_⟩
  intro text h
  have h2 : (onMessage demoEnv bothOnline 2 rawCallObject).sent
      = [(2, .obj [("type", .str "error"), ("message", .str "Invalid message format")])] := rfl
  rw [h2] at h
  simp at h

/-- C6, amended: for every `call-user` frame from sender A whose
`targetUserId` converts to a string (every string, number, boolean and null,
an absent one, which converts to `undefined`, and every array or object
without an own `toString` inside) and is absent, not registered, or
registered with a socket that is not open: exactly one frame is sent, on
A's socket, equal to
`{type: "call-error", payload: {message: "User <targetUserId> is not available."}}`
with the converted `targetUserId` in the message, and nothing else in the
server changes. -/
theorem C6_call_user_unavailable (env : Env) (s : Server) (ws : Handle)
    (raw A shown : String) (parsed payload : JsVal)
    (hparse : env.parse raw = some parsed)
    (htype : parsed.member? "type" = some (.str "call-user"))
    (hpayload : parsed.member? "payload" = some payload)
    (hA : (s.sockets ws).userId = .str A)
    (hshown : (payload.get "targetUserId").toStr = some shown)
    (hgone : payload.get "targetUserId" = .undefined ∨
      s.lookup (payload.get "targetUserId") = none ∨
      ∃ h, s.lookup (payload.get "targetUserId") = some h ∧ (s.sockets h).readyState ≠ .OPEN) :
    onMessage env s ws raw
      = { s with sent := s.sent ++ [(ws, .obj [("type", .str "call-error"),
          ("payload", .obj [("message", .str ("User " ++ shown ++ " is not available."))])])] } ∧
    (∀ B, payload.get "targetUserId" = .str B → shown = B) ∧
    (payload.get "targetUserId" = .undefined → shown = "undefined") := by
  refine ⟨?_, ?_, ?_⟩
  · rw [onMessage_routed env s ws raw "call-user" A parsed (.str "call-user") payload hparse
        htype hpayload rfl (by rw [hA]; rfl),
      routeMessage_callUser]
    have hclosed : s.openTarget (if (payload.get "targetUserId").truthy
        then s.lookup (payload.get "targetUserId") else none) = none := by
      rcases hgone with h | h | ⟨h, hl, hs⟩
      · simp [h, JsVal.truthy, Server.openTarget]
      · by_cases ht : (payload.get "targetUserId").truthy = true <;>
          simp [ht, h, Server.openTarget]
      · by_cases ht : (payload.get "targetUserId").truthy = true <;>
          simp [ht, hl, hs, Server.openTarget]
    simp [callUser, hclosed, hshown, Server.send, callErrorFrame]
  · intro B hB
    rw [hB] at hshown
    simpa [JsVal.toStr] using hshown.symm
  · intro hU
    rw [hU] at hshown
    simpa [JsVal.toStr] using hshown.symm

/-- C6, amended, on bob (socket 2) calling carol, who is not connected. -/
theorem C6_call_user_unavailable_witness :
    onMessage demoEnv bothOnline 2 rawCallCarol
      = { bothOnline with sent := bothOnline.sent ++ [(2, .obj [("type", .str "call-error"),
          ("payload", .obj [("message", .str ("User " ++ "carol" ++ " is not available."))])])] } ∧
    (∀ B, (payloadTo (.str "carol") []).get "targetUserId" = .str B → "carol" = B) ∧
    ((payloadTo (.str "carol") []).get "targetUserId" = .undefined → "carol" = "undefined") :=
  C6_call_user_unavailable demoEnv bothOnline 2 rawCallCarol "bob" "carol"
    (frameOf "call-user" (payloadTo (.str "carol") [])) (payloadTo (.str "carol") [])
    rfl rfl rfl rfl rfl (Or.inr (Or.inl rfl))

/-! ## C7 -/

/-- C7, counterexample: bob, on socket 2, sends `call-user` with
`targetUserId` bob (registered with the open socket 2) and `callType` the
empty string.  The one frame goes to socket 2, so the sender receives a
frame, and its `callType` is `voice`, not the supplied value. -/
theorem C7_call_to_self_with_empty_callType :
    (bothOnline.sockets 2).userId = .str "bob" ∧
    demoEnv.parse rawCallBob
      = some (frameOf "call-user" (payloadTo (.str "bob") [("callType", .str "")])) ∧
    mapGet bothOnline.userConnections (.str "bob") = some 2 ∧
    (bothOnline.sockets 2).readyState = .OPEN ∧
    bothOnline.sent = [] ∧
    (onMessage demoEnv bothOnline 2 rawCallBob).sent
      = [(2, .obj [("type", .str "incoming-call"),
          ("payload", .obj [("callerId", .str "bob"), ("callType", .str "voice")])])] := by
  refine ⟨rfl, rfl, by decide, by decide, rfl, rfl⟩

/-- C7, amended: for every `call-user` frame from sender B whose
`targetUserId` is a non-empty string A registered with an open socket,
exactly one frame is sent, on A's socket, equal to
`{type: "incoming-call", payload: {callerId: B, callType: c}}` where c is
the frame's `callType` when that is truthy and `voice` when it is absent or
falsy (null, false, 0 or the empty string); no frame is sent on any other
socket (B's socket gets the frame when it is A's registered socket), and
nothing else in the server changes. -/
theorem C7_call_user_delivers_incoming_call (env : Env) (s : Server) (ws hA : Handle)
    (raw A B : String) (parsed payload : JsVal)
    (hparse : env.parse raw = some parsed)
    (htype : parsed.member? "type" = some (.str "call-user"))
    (hpayload : parsed.member? "payload" = some payload)
    (hB : (s.sockets ws).userId = .str B)
    (htarget : payload.get "targetUserId" = .str A) (hAne : A ≠ "")
    (hreg : mapGet s.userConnections (.str A) = some hA)
    (hopen : (s.sockets hA).readyState = .OPEN) :
    ∃ c : JsVal,
      onMessage env s ws raw
        = { s with sent := s.sent ++ [(hA, .obj [("type", .str "incoming-call"),
            ("payload", .obj [("callerId", .str B), ("callType", c)])])] } ∧
      ((payload.get "callType").truthy = true → c = payload.get "callType") ∧
      ((payload.get "callType").truthy = false → c = .str "voice") := by
  refine ⟨if (payload.get "callType").truthy then payload.get "callType" else .str "voice",
    ?_, ?_, ?_⟩
  · rw [onMessage_routed env s ws raw "call-user" B parsed (.str "call-user") payload hparse
        htype hpayload rfl (by rw [hB]; rfl),
      routeMessage_callUser]
    simp [callUser, htarget, JsVal.truthy, hAne, lookup_str, hreg, Server.openTarget, hopen,
      JsVal.toStr, hB, Server.send, incomingCallFrame]
  · intro h; simp [h]
  · intro h; simp [h]

/-- C7, amended, on bob (socket 2) calling alice (socket 1) with video. -/
theorem C7_call_user_delivers_incoming_call_witness :
    ∃ c : JsVal,
      onMessage demoEnv bothOnline 2 rawCallAlice
        = { bothOnline with sent := bothOnline.sent ++ [(1, .obj [("type", .str "incoming-call"),
            ("payload", .obj [("callerId", .str "bob"), ("callType", c)])])] } ∧
      (((payloadTo (.str "alice") [("callType", .str "video")]).get "callType").truthy = true →
        c = (payloadTo (.str "alice") [("callType", .str "video")]).get "callType") ∧
      (((payloadTo (.str "alice") [("callType", .str "video")]).get "callType").truthy = false →
        c = .str "voice") :=
  C7_call_user_delivers_incoming_call demoEnv bothOnline 2 1 rawCallAlice "alice" "bob"
    (frameOf "call-user" (payloadTo (.str "alice") [("callType", .str "video")]))
    (payloadTo (.str "alice") [("callType", .str "video")])
    rfl rfl rfl rfl rfl (by decide) (by decide) (by decide)

/-! ## C8 -/

/-- C8, counterexample: alice, on socket 1, sends an `offer` whose
`targetUserId` is the object `{"toString":1}`, which is not registered.  The
log line of the drop converts it to a string, which throws, and the `catch`
sends alice an `error` frame. -/
theorem C8_unprintable_target_gets_format_error :
    (bothOnline.sockets 1).userId = .str "alice" ∧
    demoEnv.parse rawOfferToObject
      = some (frameOf "offer" (payloadTo (.obj [("toString", .num "1")]) [])) ∧
    bothOnline.lookup (.obj [("toString", .num "1")]) = none ∧
    bothOnline.sent = [] ∧
    (onMessage demoEnv bothOnline 1 rawOfferToObject).sent
      = [(1, .obj [("type", .str "error"), ("message", .str "Invalid message format")])] := by
  refine ⟨rfl, rfl, rfl, rfl, rfl⟩

/-- C8, amended: for every frame of a relayed type from sender A whose
`targetUserId` converts to a string (every string, number, boolean and null,
an absent one, and every array or object without an own `toString` inside)
and is absent, not registered, or registered with a socket that is not
open: the server is left exactly as it was, so no frame is sent on any
socket, the sender's included, and the registry is unchanged. -/
theorem C8_relay_unavailable_is_silent (env : Env) (s : Server) (ws : Handle)
    (raw ty A shown : String) (parsed payload : JsVal)
    (hparse : env.parse raw = some parsed)
    (htype : parsed.member? "type" = some (.str ty))
    (hpayload : parsed.member? "payload" = some payload)
    (hty : ty ∈ forwardable)
    (hA : (s.sockets ws).userId = .str A)
    (hshown : (payload.get "targetUserId").toStr = some shown)
    (hgone : payload.get "targetUserId" = .undefined ∨
      s.lookup (payload.get "targetUserId") = none ∨
      ∃ h, s.lookup (payload.get "targetUserId") = some h ∧ (s.sockets h).readyState ≠ .OPEN) :
    onMessage env s ws raw = s ∧
    (onMessage env s ws raw).sent = s.sent ∧
    (onMessage env s ws raw).userConnections = s.userConnections := by
  have key : onMessage env s ws raw = s := by
    rw [onMessage_routed env s ws raw ty A parsed (.str ty) payload hparse
        htype hpayload rfl (by rw [hA]; rfl),
      routeMessage_forwardable s ws ty payload hty]
    have hclosed : s.openTarget (if (payload.get "targetUserId").truthy
        then s.lookup (payload.get "targetUserId") else none) = none := by
      rcases hgone with h | h | ⟨h, hl, hs⟩
      · simp [h, JsVal.truthy, Server.openTarget]
      · by_cases ht : (payload.get "targetUserId").truthy = true <;>
          simp [ht, h, Server.openTarget]
      · by_cases ht : (payload.get "targetUserId").truthy = true <;>
          simp [ht, hl, hs, Server.openTarget]
    simp [relay, hclosed, hshown, JsVal.toStr]
  rw [key]
  exact ⟨rfl, rfl, rfl⟩

/-- C8, amended, on alice (socket 1) sending an offer to carol, who is not
connected. -/
theorem C8_relay_unavailable_is_silent_witness :
    onMessage demoEnv bothOnline 1 rawOfferToCarol = bothOnline ∧
    (onMessage demoEnv bothOnline 1 rawOfferToCarol).sent = bothOnline.sent ∧
    (onMessage demoEnv bothOnline 1 rawOfferToCarol).userConnections
      = bothOnline.userConnections :=
  C8_relay_unavailable_is_silent demoEnv bothOnline 1 rawOfferToCarol "offer" "alice" "carol"
    (frameOf "offer" (payloadTo (.str "carol") [("sdp", .str "v=0")]))
    (payloadTo (.str "carol") [("sdp", .str "v=0")])
    rfl rfl rfl (by decide) rfl rfl (Or.inr (Or.inl rfl))

/-! ## C9 -/

/-- C9: for every `update-presence` frame from sender A, a payload with
`status` `active` issues the presence write (A, online), one with `status`
`idle` issues the presence write (A, idle), in both cases without sending a
frame; with any other status, or without a payload, the server is left
exactly as it was: no presence write (hence no broadcast) and no frame to
the sender. -/
theorem C9_update_presence (env : Env) (s : Server) (ws : Handle) (raw A : String)
    (parsed payload : JsVal)
    (hparse : env.parse raw = some parsed)
    (htype : parsed.member? "type" = some (.str "update-presence"))
    (hpayload : parsed.member? "payload" = some payload)
    (hA : (s.sockets ws).userId = .str A) :
    (payload.get "status" = .str "active" →
      onMessage env s ws raw
        = { s with presenceWrites := s.presenceWrites ++ [(.str A, "online")] }) ∧
    (payload.get "status" = .str "idle" →
      onMessage env s ws raw
        = { s with presenceWrites := s.presenceWrites ++ [(.str A, "idle")] }) ∧
    (payload.get "status" ≠ .str "active" → payload.get "status" ≠ .str "idle" →
      onMessage env s ws raw = s) := by
  have hroute : onMessage env s ws raw = updatePresence s (.str A) payload := by
    rw [onMessage_routed env s ws raw "update-presence" A parsed (.str "update-presence")
        payload hparse htype hpayload rfl (by rw [hA]; rfl),
      routeMessage_updatePresence, hA]
  have htruthy : ∀ st, payload.get "status" = .str st → payload.truthy = true := by
    intro st hst
    cases payload <;> simp [JsVal.get] at hst
    rfl
  refine ⟨?_, ?_, ?_⟩
  · intro h
    rw [hroute]
    simp [updatePresence, h, htruthy _ h, JsVal.isStr, updateAndBroadcastPresence]
  · intro h
    rw [hroute]
    simp [updatePresence, h, htruthy _ h, JsVal.isStr, updateAndBroadcastPresence]
  · intro h1 h2
    rw [hroute]
    have n1 : (payload.get "status").isStr "active" = false := by
      cases hs : payload.get "status" <;> simp [JsVal.isStr]
      intro hh; subst hh; exact h1 hs
    have n2 : (payload.get "status").isStr "idle" = false := by
      cases hs : payload.get "status" <;> simp [JsVal.isStr]
      intro hh; subst hh; exact h2 hs
    simp [updatePresence, n1, n2]

/-- C9 on alice (socket 1) reporting herself active. -/
theorem C9_update_presence_witness :
    ((JsVal.obj [("status", .str "active")]).get "status" = .str "active" →
      onMessage demoEnv bothOnline 1 rawPresenceActive
        = { bothOnline with
            presenceWrites := bothOnline.presenceWrites ++ [(.str "alice", "online")] }) ∧
    ((JsVal.obj [("status", .str "active")]).get "status" = .str "idle" →
      onMessage demoEnv bothOnline 1 rawPresenceActive
        = { bothOnline with
            presenceWrites := bothOnline.presenceWrites ++ [(.str "alice", "idle")] }) ∧
    ((JsVal.obj [("status", .str "active")]).get "status" ≠ .str "active" →
      (JsVal.obj [("status", .str "active")]).get "status" ≠ .str "idle" →
      onMessage demoEnv bothOnline 1 rawPresenceActive = bothOnline) :=
  C9_update_presence demoEnv bothOnline 1 rawPresenceActive "alice"
    (frameOf "update-presence" (.obj [("status", .str "active")]))
    (.obj [("status", .str "active")]) rfl rfl rfl rfl

/-! ## C10 -/

/-- C10: for every raw frame that does not parse as JSON, exactly one frame
is sent, on the sender's socket, equal to
`{type: "error", message: "Invalid message format"}`; nothing else in the
server changes: the sender's socket is not terminated and keeps its state,
the registry is unchanged, and no other socket is sent anything. -/
theorem C10_unparseable_frame (env : Env) (s : Server) (ws : Handle) (raw : String)
    (hparse : env.parse raw = none) :
    onMessage env s ws raw
      = { s with sent := s.sent ++ [(ws, .obj [("type", .str "error"),
          ("message", .str "Invalid message format")])] } ∧
    (onMessage env s ws raw).userConnections = s.userConnections ∧
    (onMessage env s ws raw).terminated = s.terminated ∧
    ((onMessage env s ws raw).sockets ws).readyState = (s.sockets ws).readyState := by
  have key : onMessage env s ws raw
      = { s with sent := s.sent ++ [(ws, .obj [("type", .str "error"),
          ("message", .str "Invalid message format")])] } := by
    simp [onMessage, handleMessage, hparse, Server.send, errorFrame]
  rw [key]
  exact ⟨rfl, rfl, rfl, rfl⟩

/-- C10 on alice (socket 1) sending the text `not json`. -/
theorem C10_unparseable_frame_witness :
    onMessage demoEnv bothOnline 1 "not json"
      = { bothOnline with sent := bothOnline.sent ++ [(1, .obj [("type", .str "error"),
          ("message", .str "Invalid message format")])] } ∧
    (onMessage demoEnv bothOnline 1 "not json").userConnections = bothOnline.userConnections ∧
    (onMessage demoEnv bothOnline 1 "not json").terminated = bothOnline.terminated ∧
    ((onMessage demoEnv bothOnline 1 "not json").sockets 1).readyState
      = (bothOnline.sockets 1).readyState :=
  C10_unparseable_frame demoEnv bothOnline 1 "not json" rfl

/-! ## C11 -/

/-- C11, counterexample: alice, on socket 1, sends the frame
`{"type":{"toString":1}}`, a JSON object whose type is none of the eight
recognised ones.  The first log line converts `type` to a string, which
throws, and the one frame alice gets says `Invalid message format`, not
`Unknown message type`. -/
theorem C11_unprintable_type_gets_format_error :
    (bothOnline.sockets 1).userId = .str "alice" ∧
    demoEnv.parse rawObjectType = some (.obj [("type", .obj [("toString", .num "1")])]) ∧
    bothOnline.sent = [] ∧
    (onMessage demoEnv bothOnline 1 rawObjectType).sent
      = [(1, .obj [("type", .str "error"), ("message", .str "Invalid message format")])] ∧
    (onMessage demoEnv bothOnline 1 rawObjectType).sent
      ≠ [(1, .obj [("type", .str "error"), ("message", .str "Unknown message type")])] := by
  refine ⟨rfl, rfl, rfl, rfl, ?_⟩
  intro h
  have h2 : (onMessage demoEnv bothOnline 1 rawObjectType).sent
      = [(1, .obj [("type", .str "error"), ("message", .str "Invalid message format")])] := rfl
  rw [h2] at h
  simp at h

/-- C11, amended: for every frame from sender A that parses to a JSON object
whose `type` converts to a string (every string, number, boolean and null, a
missing one, and every array or object without an own `toString` inside) and
is none of `update-presence`, `call-user`, `offer`, `answer`,
`ice-candidate`, `call-accepted`, `call-rejected`, `call-ended`: exactly one
frame is sent, on the sender's socket, equal to
`{type: "error", message: "Unknown message type"}`, and nothing else in the
server changes: the socket keeps its state, the registry is unchanged and
nothing is forwarded, whatever the payload names as `targetUserId`. -/
theorem C11_unknown_type (env : Env) (s : Server) (ws : Handle) (raw A shown : String)
    (props : List (String × JsVal))
    (hparse : env.parse raw = some (.obj props))
    (hA : (s.sockets ws).userId = .str A)
    (hshown : (lookupProp props "type").toStr = some shown)
    (hp : lookupProp props "type" ≠ .str "update-presence")
    (hc : lookupProp props "type" ≠ .str "call-user")
    (hf : ∀ ty ∈ forwardable, lookupProp props "type" ≠ .str ty) :
    onMessage env s ws raw
      = { s with sent := s.sent ++ [(ws, .obj [("type", .str "error"),
          ("message", .str "Unknown message type")])] } ∧
    (onMessage env s ws raw).userConnections = s.userConnections ∧
    (onMessage env s ws raw).terminated = s.terminated ∧
    ((onMessage env s ws raw).sockets ws).readyState = (s.sockets ws).readyState := by
  have hno : ∀ lit, lookupProp props "type" ≠ .str lit →
      (lookupProp props "type").isStr lit = false := by
    intro lit hne
    cases hs : lookupProp props "type" <;> simp [JsVal.isStr]
    intro hh; subst hh; exact hne hs
  have key : onMessage env s ws raw
      = { s with sent := s.sent ++ [(ws, .obj [("type", .str "error"),
          ("message", .str "Unknown message type")])] } := by
    rw [onMessage_routed env s ws raw shown A (.obj props) (lookupProp props "type")
        (lookupProp props "payload") hparse rfl rfl hshown (by rw [hA]; rfl)]
    simp [routeMessage, hno _ hp, hno _ hc, hno _ (hf "offer" (by decide)),
      hno _ (hf "answer" (by decide)), hno _ (hf "ice-candidate" (by decide)),
      hno _ (hf "call-accepted" (by decide)), hno _ (hf "call-rejected" (by decide)),
      hno _ (hf "call-ended" (by decide)), Server.send, errorFrame]
  rw [key]
  exact ⟨rfl, rfl, rfl, rfl⟩

/-- C11, amended, on alice (socket 1) sending a `ping` that names the
connected bob as target. -/
theorem C11_unknown_type_witness :
    onMessage demoEnv bothOnline 1 rawPingBob
      = { bothOnline with sent := bothOnline.sent ++ [(1, .obj [("type", .str "error"),
          ("message", .str "Unknown message type")])] } ∧
    (onMessage demoEnv bothOnline 1 rawPingBob).userConnections = bothOnline.userConnections ∧
    (onMessage demoEnv bothOnline 1 rawPingBob).terminated = bothOnline.terminated ∧
    ((onMessage demoEnv bothOnline 1 rawPingBob).sockets 1).readyState
      = (bothOnline.sockets 1).readyState :=
  C11_unknown_type demoEnv bothOnline 1 rawPingBob "alice" "ping"
    [("type", .str "ping"), ("payload", payloadTo (.str "bob") [])]
    rfl rfl rfl (by simp [lookupProp]) (by simp [lookupProp])
    (by simp [lookupProp, forwardable])

/-! ## Presence broadcast -/

theorem broadcast_eq (frame : JsVal) (clients : List Handle) (s : Server) :
    broadcast s frame clients
      = { s with sent := s.sent ++ (clients.filter
          (fun c => (s.sockets c).readyState = .OPEN)).map (fun c => (c, frame)) } := by
  induction clients generalizing s with
  | nil => simp [broadcast]
  | cons c rest ih =>
    by_cases hc : (s.sockets c).readyState = .OPEN
    · simp [broadcast, hc, ih, Server.send, List.filter_cons]
    · simp [broadcast, hc, ih, List.filter_cons]

theorem presenceSettled_updated (s : Server) (i : Nat) (id presenceStatus : JsVal)
    (lastSeen : String) (hi : i < s.presenceWrites.length) :
    presenceSettled s i (.updated id presenceStatus lastSeen)
      = { s with
          presenceWrites := s.presenceWrites.eraseIdx i
          sent := s.sent ++ (s.clients.filter
            (fun c => (s.sockets c).readyState = .OPEN)).map
              (fun c => (c, presenceFrame id presenceStatus lastSeen)) } := by
  simp [presenceSettled, hi, broadcast_eq]

theorem sentSince_append (before after : Server) (new : List (Handle × JsVal))
    (h : after.sent = before.sent ++ new) : sentSince before after = new := by
  simp [sentSince, h]

/-! ## C12 -/

/-- C12, counterexample: alice connects on socket 1 and again on socket 3.
The registry holds socket 3 only, socket 1 is still open, and when a
presence write settles the `presence-update` frame is sent on socket 1 as
well as on socket 3. -/
theorem C12_superseded_socket_receives_broadcast :
    aliceTwiceLive.userConnections.map (fun e => e.2) = [3] ∧
    (aliceTwiceLive.sockets 1).readyState = .OPEN ∧
    aliceTwiceLive.presenceWrites.length = 2 ∧
    (sentSince aliceTwiceLive (presenceSettled aliceTwiceLive 0
        (.updated (.str "alice") (.str "online") "2024-01-01T10:00:00.000Z"))).map
      (fun e => e.1) = [1, 3] := by
  refine ⟨by decide, by decide, by decide, by decide⟩

/-- C12, amended: for every presence broadcast, the connections that receive
the `presence-update` frame are exactly the members of `wss.clients` that
are open, each once, in the order of `wss.clients`, whether or not they are
stored in the connection registry; a connection that is open but superseded
in the registry by a later connect of the same user receives the frame
too. -/
theorem C12_broadcast_reaches_open_clients (s : Server) (i : Nat)
    (id presenceStatus : JsVal) (lastSeen : String) (hi : i < s.presenceWrites.length) :
    sentSince s (presenceSettled s i (.updated id presenceStatus lastSeen))
      = (s.clients.filter (fun c => (s.sockets c).readyState = .OPEN)).map
          (fun c => (c, presenceFrame id presenceStatus lastSeen)) ∧
    ∀ h, (∃ frame, (h, frame) ∈ sentSince s
        (presenceSettled s i (.updated id presenceStatus lastSeen)))
      ↔ (h ∈ s.clients ∧ (s.sockets h).readyState = .OPEN) := by
  have key := sentSince_append s (presenceSettled s i (.updated id presenceStatus lastSeen)) _
    (by rw [presenceSettled_updated s i id presenceStatus lastSeen hi])
  refine ⟨key, ?_⟩
  intro h
  rw [key]
  constructor
  · rintro ⟨frame, hmem⟩
    simp only [List.mem_map, List.mem_filter, Prod.mk.injEq] at hmem
    obtain ⟨c, ⟨hc, ho⟩, hch, _⟩ := hmem
    subst hch
    exact ⟨hc, by simpa using ho⟩
  · rintro ⟨hc, ho⟩
    exact ⟨presenceFrame id presenceStatus lastSeen,
      List.mem_map.mpr ⟨h, List.mem_filter.mpr ⟨hc, by simpa using ho⟩, rfl⟩⟩

/-- C12, amended, on alice's two open sockets when her first write
settles. -/
theorem C12_broadcast_reaches_open_clients_witness :
    sentSince aliceTwiceLive (presenceSettled aliceTwiceLive 0
        (.updated (.str "alice") (.str "online") "2024-01-01T10:00:00.000Z"))
      = (aliceTwiceLive.clients.filter
          (fun c => (aliceTwiceLive.sockets c).readyState = .OPEN)).map
          (fun c => (c, presenceFrame (.str "alice") (.str "online")
            "2024-01-01T10:00:00.000Z")) ∧
    ∀ h, (∃ frame, (h, frame) ∈ sentSince aliceTwiceLive (presenceSettled aliceTwiceLive 0
        (.updated (.str "alice") (.str "online") "2024-01-01T10:00:00.000Z")))
      ↔ (h ∈ aliceTwiceLive.clients ∧ (aliceTwiceLive.sockets h).readyState = .OPEN) :=
  C12_broadcast_reaches_open_clients aliceTwiceLive 0 (.str "alice") (.str "online")
    "2024-01-01T10:00:00.000Z" (by decide)

/-! ## C13 -/

/-- C13: when the presence write fails, or no user record exists for the
id, settling it sends no frame on any socket; when the write succeeds, the
frames sent are one per open member of `wss.clients`, each equal to
`{type: "presence-update", payload: {userId, status, lastSeen}}` with the
id, status and last-seen value of the record the write returned. -/
theorem C13_presence_settles (s : Server) (i : Nat) :
    (presenceSettled s i .dbError).sent = s.sent ∧
    (presenceSettled s i .notFound).sent = s.sent ∧
    ∀ (id presenceStatus : JsVal) (lastSeen : String),
      (i < s.presenceWrites.length →
        sentSince s (presenceSettled s i (.updated id presenceStatus lastSeen))
          = (s.clients.filter (fun c => (s.sockets c).readyState = .OPEN)).map
              (fun c => (c, .obj [("type", .str "presence-update"),
                ("payload", .obj [("userId", id), ("status", presenceStatus),
                  ("lastSeen", .str lastSeen)])]))) ∧
      ∀ e ∈ sentSince s (presenceSettled s i (.updated id presenceStatus lastSeen)),
        e.2 = .obj [("type", .str "presence-update"),
          ("payload", .obj [("userId", id), ("status", presenceStatus),
            ("lastSeen", .str lastSeen)])] := by
  refine ⟨?_, ?_, ?_⟩
  · unfold presenceSettled; split <;> rfl
  · unfold presenceSettled; split <;> rfl
  · intro id presenceStatus lastSeen
    by_cases hi : i < s.presenceWrites.length
    · have key := sentSince_append s (presenceSettled s i (.updated id presenceStatus lastSeen))
        _ (by rw [presenceSettled_updated s i id presenceStatus lastSeen hi])
      refine ⟨fun _ => key, ?_⟩
      intro e he
      rw [key] at he
      simp only [List.mem_map] at he
      obtain ⟨c, _, hc⟩ := he
      subst hc
      rfl
    · refine ⟨fun h => absurd h hi, ?_⟩
      intro e he
      simp [presenceSettled, hi, sentSince] at he

/-- C13 on alice's two open sockets: a failed write, a missing record, and
a successful write. -/
theorem C13_presence_settles_witness :
    (presenceSettled aliceTwiceLive 0 .dbError).sent = aliceTwiceLive.sent ∧
    (presenceSettled aliceTwiceLive 0 .notFound).sent = aliceTwiceLive.sent ∧
    sentSince aliceTwiceLive (presenceSettled aliceTwiceLive 0
        (.updated (.str "alice") (.str "online") "2024-01-01T10:00:00.000Z"))
      = (aliceTwiceLive.clients.filter
          (fun c => (aliceTwiceLive.sockets c).readyState = .OPEN)).map
          (fun c => (c, .obj [("type", .str "presence-update"),
            ("payload", .obj [("userId", .str "alice"), ("status", .str "online"),
              ("lastSeen", .str "2024-01-01T10:00:00.000Z")])])) :=
  ⟨(C13_presence_settles aliceTwiceLive 0).1, (C13_presence_settles aliceTwiceLive 0).2.1,
   ((C13_presence_settles aliceTwiceLive 0).2.2 (.str "alice") (.str "online")
      "2024-01-01T10:00:00.000Z").1 (by decide)⟩

/-! ## Sorting two ids -/

theorem unitsLt_asymm (x y : List Nat) (h : unitsLt x y = true) : unitsLt y x = false := by
  induction x generalizing y with
  | nil => cases y <;> simp_all [unitsLt]
  | cons a x ih =>
    cases y with
    | nil => simp [unitsLt] at h
    | cons b y =>
      simp only [unitsLt] at h ⊢
      by_cases hab : a < b
      · have hba : ¬ b < a := by omega
        simp [hba, hab]
      · by_cases hba : b < a
        · simp [hab, hba] at h
        · simp only [hab, hba, if_false] at h ⊢
          exact ih y h

theorem unitsLt_total (x y : List Nat) (h1 : unitsLt x y = false) (h2 : unitsLt y x = false) :
    x = y := by
  induction x generalizing y with
  | nil => cases y <;> simp_all [unitsLt]
  | cons a x ih =>
    cases y with
    | nil => simp [unitsLt] at h2
    | cons b y =>
      simp only [unitsLt] at h1 h2
      by_cases hab : a < b
      · simp [hab] at h1
      · by_cases hba : b < a
        · simp [hba] at h2
        · simp only [hab, hba, if_false] at h1 h2
          have : a = b := by omega
          subst this
          rw [ih y h1 h2]

theorem char_toNat_valid (c : Char) :
    c.toNat < 0xD800 ∨ (0xDFFF < c.toNat ∧ c.toNat < 0x110000) := by
  have h := c.valid
  simpa [UInt32.isValidChar, Nat.isValidChar, Char.toNat] using h

theorem char_eq_of_toNat (c d : Char) (h : c.toNat = d.toNat) : c = d := by
  apply Char.ext
  apply UInt32.ext
  simpa [Char.toNat] using h

theorem utf16_injective (x y : List Char) (h : utf16 x = utf16 y) : x = y := by
  induction x generalizing y with
  | nil =>
    cases y with
    | nil => rfl
    | cons d y =>
      simp only [utf16, utf16Char] at h
      split at h <;> simp at h
  | cons c x ih =>
    cases y with
    | nil =>
      simp only [utf16, utf16Char] at h
      split at h <;> simp at h
    | cons d y =>
      have hc := char_toNat_valid c
      have hd := char_toNat_valid d
      simp only [utf16, utf16Char] at h
      by_cases hcs : c.toNat < 0x10000 <;> by_cases hds : d.toNat < 0x10000
      · simp only [hcs, hds, if_true, List.singleton_append, List.cons.injEq] at h
        rw [char_eq_of_toNat c d h.1, ih y h.2]
      · simp only [hcs, hds, if_true, if_false, List.singleton_append, List.cons_append,
          List.nil_append, List.cons.injEq] at h
        omega
      · simp only [hcs, hds, if_true, if_false, List.singleton_append, List.cons_append,
          List.nil_append, List.cons.injEq] at h
        omega
      · simp only [hcs, hds, if_false, List.cons_append, List.nil_append,
          List.cons.injEq] at h
        obtain ⟨h1, h2, h3⟩ := h
        have : c.toNat = d.toNat := by omega
        rw [char_eq_of_toNat c d this, ih y h3]

theorem sortPair_str (a b : String) :
    sortPair (.str a) (.str b)
      = some (if unitsLt (utf16 b.toList) (utf16 a.toList) then [.str b, .str a]
          else [.str a, .str b]) := by
  simp [sortPair, JsVal.toStr]

theorem sortPair_str_comm (a b : String) :
    sortPair (.str a) (.str b) = sortPair (.str b) (.str a) := by
  rw [sortPair_str, sortPair_str]
  by_cases h1 : unitsLt (utf16 b.toList) (utf16 a.toList) = true
  · have h2 := unitsLt_asymm _ _ h1
    rw [if_pos h1, if_neg (by rw [h2]; decide)]
  · by_cases h2 : unitsLt (utf16 a.toList) (utf16 b.toList) = true
    · rw [if_neg h1, if_pos h2]
    · have hab : a = b := by
        have hl := utf16_injective _ _
          (unitsLt_total _ _ (by simpa using h2) (by simpa using h1))
        exact String.ext hl
      subst hab
      simp

theorem sortPair_defined (a : String) (v : JsVal) (k : String) (h : v.toStr = some k) :
    ∃ p, sortPair (.str a) v = some p := by
  have ha : (JsVal.str a).toStr = some a := rfl
  cases v with
  | undefined => exact ⟨_, rfl⟩
  | null => simp only [sortPair, h, ha]; exact ⟨_, rfl⟩
  | bool b => simp only [sortPair, h, ha]; exact ⟨_, rfl⟩
  | num text => simp only [sortPair, h, ha]; exact ⟨_, rfl⟩
  | str text => simp only [sortPair, h, ha]; exact ⟨_, rfl⟩
  | arr items => simp only [sortPair, h, ha]; exact ⟨_, rfl⟩
  | obj props => simp only [sortPair, h, ha]; exact ⟨_, rfl⟩

/-! ## C17 -/

/-- C17: the conversation key does not depend on who initiates.  For every
pair of user id strings a and b, the participants list `sendMessage`
computes for sender a and receiver b is the one it computes for sender b and
receiver a, and the one `getMessages` computes for current user a and other
user b, and for b and a; it is a list of the two ids (the sort never
throws on strings). -/
theorem C17_participants_independent_of_initiator (a b : String) :
    sendMessageParticipants a (.str b) = sendMessageParticipants b (.str a) ∧
    sendMessageParticipants a (.str b) = getMessagesParticipants a b ∧
    sendMessageParticipants a (.str b) = getMessagesParticipants b a ∧
    (sendMessageParticipants a (.str b) = some [.str a, .str b] ∨
      sendMessageParticipants a (.str b) = some [.str b, .str a]) := by
  refine ⟨sortPair_str_comm a b, rfl, sortPair_str_comm a b, ?_⟩
  unfold sendMessageParticipants
  rw [sortPair_str]
  by_cases h : unitsLt (utf16 b.toList) (utf16 a.toList) = true
  · right; rw [if_pos h]
  · left; rw [if_neg h]

/-! ## C15 -/

theorem pushToReceiver_pushOnlyAfterSave (initialized : Bool) (wss : Server)
    (receiverId populatedMessage messageType content : JsVal) (senderId : String)
    (participants : List JsVal) :
    pushOnlyAfterSave (pushToReceiver initialized wss receiverId populatedMessage
      [.conversationUpserted participants,
        .messageSaved senderId receiverId messageType content, .conversationSaved,
        .messageFetched]).2 = true := by
  unfold pushToReceiver
  split
  · rfl
  · split
    · rfl
    · split <;> rfl

theorem sendMessage_pushOnlyAfterSave (initialized : Bool) (wss : Server) (db : ChatDb)
    (body : JsVal) (userId : String) :
    pushOnlyAfterSave (sendMessage initialized wss db body userId).2 = true := by
  unfold sendMessage
  simp only
  split
  · rfl
  · split
    · rfl
    · split
      · rfl
      · split
        · rfl
        · split
          · rfl
          · split
            · rfl
            · split
              · rfl
              · exact pushToReceiver_pushOnlyAfterSave _ _ _ _ _ _ _ _

/-- C15: for a `sendMessage` request from `userId` whose `receiverId` is the
string R (or any value whose string conversion is R), other than the sender,
with a non-empty content, once the manager is initialised and every database
call succeeds (the message is stored and read back as `populatedMessage`):
when the registry maps R to an open socket, exactly one frame
`{type: "new-message", payload: populatedMessage}` is sent, on that socket;
when R is not registered or its socket is not open, no frame is sent; in
both cases the answer is 201 with `populatedMessage` and nothing else in the
server changes.  In every run of `sendMessage`, whatever the request and the
database do, no push comes before the message was saved. -/
theorem C15_push_to_receiver (wss : Server) (db : ChatDb) (body conversation
    populatedMessage : JsVal) (userId R : String)
    (hR : (body.get "receiverId").toStr = some R)
    (hgiven : (body.get "receiverId").truthy = true)
    (hself : body.get "receiverId" ≠ .str userId)
    (hcontent : (body.get "content").truthy = true)
    (hconv : db.conversation = some conversation) (hsave : db.messageSaved = true)
    (hlast : db.conversationSaved = true)
    (hread : db.populatedMessage = some populatedMessage) :
    (∀ h, mapGet wss.userConnections (.str R) = some h → (wss.sockets h).readyState = .OPEN →
      ∃ done, (sendMessage true wss db body userId)
        = ({ wss with sent := wss.sent ++ [(h, .obj [("type", .str "new-message"),
              ("payload", populatedMessage)])] },
            done ++ [.pushed h (.obj [("type", .str "new-message"),
              ("payload", populatedMessage)]), .responded (.created populatedMessage)])) ∧
    ((mapGet wss.userConnections (.str R) = none ∨
        ∃ h, mapGet wss.userConnections (.str R) = some h ∧
          (wss.sockets h).readyState ≠ .OPEN) →
      ∃ done, (sendMessage true wss db body userId)
        = (wss, done ++ [.responded (.created populatedMessage)]) ∧
        ∀ h frame, ChatStep.pushed h frame ∉ done) ∧
    (∀ (initialized : Bool) (wss1 : Server) (db1 : ChatDb) (body1 : JsVal) (userId1 : String),
      pushOnlyAfterSave (sendMessage initialized wss1 db1 body1 userId1).2 = true) := by
  have hnot : (body.get "receiverId").isStr userId = false := isStr_false_of_ne _ _ hself
  obtain ⟨participants, hpart⟩ :
      ∃ p, sendMessageParticipants userId (body.get "receiverId") = some p :=
    sortPair_defined userId _ R hR
  refine ⟨?_, ?_, fun i w d b u => sendMessage_pushOnlyAfterSave i w d b u⟩
  · intro h hreg hopen
    refine ⟨[.conversationUpserted participants,
      .messageSaved userId (body.get "receiverId")
        (match body.get "messageType" with
          | .undefined => .str "text"
          | given => given) (body.get "content"),
      .conversationSaved, .messageFetched], ?_⟩
    simp [sendMessage, hR, hgiven, hcontent, hnot, hpart, hconv, hsave, hlast, hread,
      pushToReceiver, getSocketServerInstance, hreg, Server.openTarget, hopen,
      Server.send, newMessageFrame]
  · intro hgone
    have hclosed : wss.openTarget (mapGet wss.userConnections (.str R)) = none := by
      rcases hgone with h | ⟨h, hl, hs⟩
      · simp [h, Server.openTarget]
      · simp [hl, hs, Server.openTarget]
    refine ⟨[.conversationUpserted participants,
      .messageSaved userId (body.get "receiverId")
        (match body.get "messageType" with
          | .undefined => .str "text"
          | given => given) (body.get "content"),
      .conversationSaved, .messageFetched], ?_, ?_⟩
    · simp [sendMessage, hR, hgiven, hcontent, hnot, hpart, hconv, hsave, hlast, hread,
        pushToReceiver, getSocketServerInstance, hclosed]
    · intro h frame hmem
      simp at hmem

/-- C15 on a message from alice to bob, who is connected on the open
socket 2. -/
theorem C15_push_to_receiver_witness :
    ∃ done, (sendMessage true bothOnline chatDbOk bodyToBob "alice")
      = ({ bothOnline with sent := bothOnline.sent ++ [(2, .obj [("type", .str "new-message"),
            ("payload", .obj [("content", .str "hi")])])] },
          done ++ [.pushed 2 (.obj [("type", .str "new-message"),
            ("payload", .obj [("content", .str "hi")])]),
            .responded (.created (.obj [("content", .str "hi")]))]) :=
  (C15_push_to_receiver bothOnline chatDbOk bodyToBob (.obj [("_id", .str "conv1")])
    (.obj [("content", .str "hi")]) "alice" "bob" rfl rfl (by simp [bodyToBob, JsVal.get,
      lookupProp]) rfl rfl rfl rfl rfl).1 2 (by decide) (by decide)

/-! ## C16 -/

theorem sendMessage_sent (initialized : Bool) (wss : Server) (db : ChatDb) (body : JsVal)
    (userId : String) :
    (sendMessage initialized wss db body userId).1.sent = wss.sent ∨
    ∃ h populatedMessage, (sendMessage initialized wss db body userId).1.sent
      = wss.sent ++ [(h, newMessageFrame populatedMessage)] := by
  unfold sendMessage
  simp only
  split
  · exact Or.inl rfl
  · split
    · exact Or.inl rfl
    · split
      · exact Or.inl rfl
      · split
        · exact Or.inl rfl
        · split
          · exact Or.inl rfl
          · split
            · exact Or.inl rfl
            · split
              · exact Or.inl rfl
              · next populatedMessage _ =>
                unfold pushToReceiver getSocketServerInstance
                split
                · exact Or.inl rfl
                · next wssInstance hinst =>
                  have hw : wssInstance = wss := by
                    by_cases hi : initialized = true
                    · simp [hi] at hinst; exact hinst.symm
                    · simp [hi] at hinst
                  subst hw
                  split
                  · exact Or.inl rfl
                  · split
                    · next h _ => exact Or.inr ⟨h, populatedMessage, rfl⟩
                    · exact Or.inl rfl

/-- C16, counterexample: the frame alice gets for the text `not json` is
`{type: "error", message: "Invalid message format"}`: it has no `payload`
and carries its data in a top-level `message`. -/
theorem C16_error_frame_has_no_payload :
    sentSince bothOnline (onMessage demoEnv bothOnline 1 "not json")
      = [(1, .obj [("type", .str "error"), ("message", .str "Invalid message format")])] ∧
    (JsVal.obj [("type", .str "error"), ("message", .str "Invalid message format")]).get
      "payload" = .undefined ∧
    ¬ ∃ (t : String) (p : JsVal),
      JsVal.obj [("type", .str "error"), ("message", .str "Invalid message format")]
        = .obj [("type", .str t), ("payload", p)] := by
  refine ⟨rfl, rfl, ?_⟩
  rintro ⟨t, p, h⟩
  simp at h

/-- C16, amended: every frame the server sends is an object of the wire form
`{type, payload}` with its data inside `payload`, except the `error` frames,
which are `{type: "error", message}` without a `payload`.  The `message`
listener sends `incoming-call`, `call-error` and relayed frames in the wire
form and `error` frames in the other; a settled presence write sends
`presence-update` frames in the wire form; `sendMessage` sends `new-message`
frames in the wire form. -/
theorem C16_wire_form :
    (∀ (env : Env) (s : Server) (ws : Handle) (raw : String),
      ∀ e ∈ sentSince s (onMessage env s ws raw),
        (∃ (t : String) (p : JsVal), e.2 = .obj [("type", .str t), ("payload", p)] ∧
          (t = "incoming-call" ∨ t = "call-error" ∨ t ∈ forwardable)) ∨
        (∃ text : String, e.2 = .obj [("type", .str "error"), ("message", .str text)])) ∧
    (∀ (s : Server) (i : Nat) (result : WriteResult),
      ∀ e ∈ sentSince s (presenceSettled s i result),
        ∃ p : JsVal, e.2 = .obj [("type", .str "presence-update"), ("payload", p)]) ∧
    (∀ (initialized : Bool) (wss : Server) (db : ChatDb) (body : JsVal) (userId : String),
      ∀ e ∈ sentSince wss (sendMessage initialized wss db body userId).1,
        ∃ p : JsVal, e.2 = .obj [("type", .str "new-message"), ("payload", p)]) := by
  refine ⟨?_, ?_, ?_⟩
  · intro env s ws raw e he
    rcases onMessage_sent env s ws raw with h | h | h | ⟨text, h⟩ | ⟨target, callType, h⟩
        | ⟨target, ty, payload, hty, h⟩
    · simp [sentSince, h] at he
    · rw [sentSince_append _ _ _ h] at he
      simp only [List.mem_singleton] at he
      subst he
      exact Or.inr ⟨_, rfl⟩
    · rw [sentSince_append _ _ _ h] at he
      simp only [List.mem_singleton] at he
      subst he
      exact Or.inr ⟨_, rfl⟩
    · rw [sentSince_append _ _ _ h] at he
      simp only [List.mem_singleton] at he
      subst he
      exact Or.inl ⟨"call-error", _, rfl, Or.inr (Or.inl rfl)⟩
    · rw [sentSince_append _ _ _ h] at he
      simp only [List.mem_singleton] at he
      subst he
      exact Or.inl ⟨"incoming-call", _, rfl, Or.inl rfl⟩
    · rw [sentSince_append _ _ _ h] at he
      simp only [List.mem_singleton] at he
      subst he
      exact Or.inl ⟨ty, _, rfl, Or.inr (Or.inr hty)⟩
  · intro s i result e he
    cases result with
    | dbError =>
      have : (presenceSettled s i .dbError).sent = s.sent := by
        unfold presenceSettled; split <;> rfl
      simp [sentSince, this] at he
    | notFound =>
      have : (presenceSettled s i .notFound).sent = s.sent := by
        unfold presenceSettled; split <;> rfl
      simp [sentSince, this] at he
    | updated id presenceStatus lastSeen =>
      by_cases hi : i < s.presenceWrites.length
      · rw [sentSince_append s _ _ (by rw [presenceSettled_updated s i _ _ _ hi])] at he
        simp only [List.mem_map] at he
        obtain ⟨c, _, hc⟩ := he
        subst hc
        exact ⟨_, rfl⟩
      · simp [presenceSettled, hi, sentSince] at he
  · intro initialized wss db body userId e he
    rcases sendMessage_sent initialized wss db body userId with h | ⟨h, populatedMessage, hs⟩
    · simp [sentSince, h] at he
    · rw [sentSince_append _ _ _ hs] at he
      simp only [List.mem_singleton] at he
      subst he
      exact ⟨_, rfl⟩

/-- C16, amended, on the offer alice sends bob, the presence broadcast to
alice's two sockets, and the chat message pushed to bob. -/
theorem C16_wire_form_witness :
    (∀ e ∈ sentSince bothOnline (onMessage demoEnv bothOnline 1 rawOfferAsMallory),
        (∃ (t : String) (p : JsVal), e.2 = .obj [("type", .str t), ("payload", p)] ∧
          (t = "incoming-call" ∨ t = "call-error" ∨ t ∈ forwardable)) ∨
        (∃ text : String, e.2 = .obj [("type", .str "error"), ("message", .str text)])) ∧
    (∀ e ∈ sentSince aliceTwiceLive (presenceSettled aliceTwiceLive 0
        (.updated (.str "alice") (.str "online") "2024-01-01T10:00:00.000Z")),
        ∃ p : JsVal, e.2 = .obj [("type", .str "presence-update"), ("payload", p)]) ∧
    (∀ e ∈ sentSince bothOnline (sendMessage true bothOnline chatDbOk bodyToBob "alice").1,
        ∃ p : JsVal, e.2 = .obj [("type", .str "new-message"), ("payload", p)]) :=
  ⟨C16_wire_form.1 demoEnv bothOnline 1 rawOfferAsMallory,
   C16_wire_form.2.1 aliceTwiceLive 0
     (.updated (.str "alice") (.str "online") "2024-01-01T10:00:00.000Z"),
   C16_wire_form.2.2 true bothOnline chatDbOk bodyToBob "alice"⟩

/-! ## C18 -/

/-- C18: for every user with a published bundle (identity key and signed
pre-key present) and both database calls succeeding: when the stored
one-time pre-key list is k1, k2, ..., kn, `getKeyBundle` answers 200 with
k1 as `oneTimePreKey` and leaves the stored list k2, ..., kn, so that a
second call hands out k2 and leaves k3, ..., kn; when the list is empty it
answers with `oneTimePreKey` null and leaves the collection as it is.  The
identity key, registration id and signed pre-key are returned as stored, and
they and every other user's document stay as they were. -/
theorem C18_one_time_pre_key_consumed (users : Users) (id : String) (user : KeyDoc)
    (hu : users id = some user) (hik : user.identityKey.truthy = true)
    (hspk : user.signedPreKey.truthy = true) :
    (∀ k1 rest, user.oneTimePreKeys = k1 :: rest →
      getKeyBundle users id true true
        = (Function.update users id (some { user with oneTimePreKeys := rest }),
            .bundle user.id user.identityKey user.registrationId user.signedPreKey k1)) ∧
    (∀ k1 k2 rest, user.oneTimePreKeys = k1 :: k2 :: rest →
      getKeyBundle (getKeyBundle users id true true).1 id true true
        = (Function.update users id (some { user with oneTimePreKeys := rest }),
            .bundle user.id user.identityKey user.registrationId user.signedPreKey k2)) ∧
    (user.oneTimePreKeys = [] →
      getKeyBundle users id true true
        = (users,
            .bundle user.id user.identityKey user.registrationId user.signedPreKey .null)) := by
  have first : ∀ (us : Users) (u : KeyDoc) k1 rest, us id = some u →
      u.identityKey.truthy = true → u.signedPreKey.truthy = true →
      u.oneTimePreKeys = k1 :: rest →
      getKeyBundle us id true true
        = (Function.update us id (some { u with oneTimePreKeys := rest }),
            .bundle u.id u.identityKey u.registrationId u.signedPreKey k1) := by
    intro us u k1 rest h1 h2 h3 h4
    simp [getKeyBundle, h1, h2, h3, h4, popFirstPreKey]
  refine ⟨fun k1 rest h => first users user k1 rest hu hik hspk h, ?_, ?_⟩
  · intro k1 k2 rest h
    rw [first users user k1 (k2 :: rest) hu hik hspk h]
    simp only
    rw [first (Function.update users id (some { user with oneTimePreKeys := k2 :: rest }))
      { user with oneTimePreKeys := k2 :: rest } k2 rest (by simp) hik hspk rfl]
    simp
  · intro h
    simp [getKeyBundle, hu, hik, hspk, h]

/-- C18 on bob's bundle with the one-time pre-keys 7 and 8. -/
theorem C18_one_time_pre_key_consumed_witness :
    getKeyBundle (getKeyBundle demoUsers "bob" true true).1 "bob" true true
      = (Function.update demoUsers "bob" (some
          { id := .str "bob", identityKey := .str "ab12", registrationId := .num "42",
            signedPreKey := .obj [("keyId", .num "1"), ("publicKey", .str "cd34"),
              ("signature", .str "ef56")],
            oneTimePreKeys := [] }),
        .bundle (.str "bob") (.str "ab12") (.num "42")
          (.obj [("keyId", .num "1"), ("publicKey", .str "cd34"), ("signature", .str "ef56")])
          (.obj [("keyId", .num "8"), ("publicKey", .str "0b")])) :=
  (C18_one_time_pre_key_consumed demoUsers "bob"
    { id := .str "bob", identityKey := .str "ab12", registrationId := .num "42",
      signedPreKey := .obj [("keyId", .num "1"), ("publicKey", .str "cd34"),
        ("signature", .str "ef56")],
      oneTimePreKeys := [.obj [("keyId", .num "7"), ("publicKey", .str "0a")],
        .obj [("keyId", .num "8"), ("publicKey", .str "0b")]] }
    rfl rfl rfl).2.1 _ _ [] rfl

/-! ## C19 -/

/-- The validation of `publishKeys` lets a body pass when the identity key,
the signed pre-key and its three fields are truthy, the registration id is
not `undefined`, and `oneTimePreKeys` is absent or an array. -/
theorem publishKeysValidation_passes (body : JsVal) (keys : List JsVal)
    (h1 : (body.get "identityKey").truthy = true)
    (h2 : body.get "registrationId" ≠ .undefined)
    (h3 : ((body.get "signedPreKey").get "keyId").truthy = true)
    (h4 : ((body.get "signedPreKey").get "publicKey").truthy = true)
    (h5 : ((body.get "signedPreKey").get "signature").truthy = true)
    (h6 : body.get "oneTimePreKeys" = .undefined ∨ body.get "oneTimePreKeys" = .arr keys) :
    publishKeysValidation body = none := by
  have hobj : ∀ v : JsVal, (v.get "keyId").truthy = true → v.truthy = true := by
    intro v hv
    cases v <;> simp [JsVal.get, JsVal.truthy] at hv ⊢
  have hs : (body.get "signedPreKey").truthy = true := hobj _ h3
  have hr : (match body.get "registrationId" with
      | .undefined => true
      | _ => false) = false := by
    cases hreg : body.get "registrationId" <;> simp
    exact h2 hreg
  unfold publishKeysValidation
  simp only [h1, hr, hs, h3, h4, h5]
  rcases h6 with h | h <;> simp [h, JsVal.truthy]

/-- C19, the failing input: a body that supplies every component, with the
number 0 as `signedPreKey.keyId`, is answered 400 `Missing required key
bundle components.`, while the same body with key id 1 passes (its
registration id 0 is accepted). -/
theorem C19_zero_key_id_rejected :
    publishKeysValidation (bundleBody "0") = some "Missing required key bundle components." ∧
    publishKeysValidation (bundleBody "1") = none := by
  constructor <;> rfl

/-! ## Presence writes and frames of `message` events -/

theorem Server.eq_of_fields (a b : Server) (h1 : a.userConnections = b.userConnections)
    (h2 : a.clients = b.clients) (h3 : a.sockets = b.sockets) (h4 : a.sent = b.sent)
    (h5 : a.terminated = b.terminated) (h6 : a.presenceWrites = b.presenceWrites) : a = b := by
  cases a; cases b; simp_all

theorem updatePresence_writes (s : Server) (senderId payload : JsVal) :
    (updatePresence s senderId payload).presenceWrites = s.presenceWrites ∨
    ∃ status, (updatePresence s senderId payload).presenceWrites
      = s.presenceWrites ++ [(senderId, status)] := by
  unfold updatePresence
  split
  · exact Or.inr ⟨_, rfl⟩
  · exact Or.inl rfl

theorem callUser_writes (s s1 : Server) (ws : Handle) (senderId targetUserId callType : JsVal)
    (targetWs : Option Handle)
    (h : callUser s ws senderId targetUserId callType targetWs = some s1) :
    s1.presenceWrites = s.presenceWrites := by
  unfold callUser at h
  split at h
  · split at h
    · cases h; rfl
    · cases h
  · split at h
    · cases h; rfl
    · cases h

theorem relay_writes (s s1 : Server) (type payload senderId targetUserId : JsVal)
    (targetWs : Option Handle)
    (h : relay s type payload senderId targetUserId targetWs = some s1) :
    s1.presenceWrites = s.presenceWrites := by
  unfold relay at h
  split at h
  · split at h
    · cases h; rfl
    · cases h
  · split at h
    · cases h; rfl
    · cases h

theorem routeMessage_writes (s s1 : Server) (ws : Handle) (type payload : JsVal)
    (h : routeMessage s ws type payload = some s1) :
    s1.presenceWrites = s.presenceWrites ∨
    (type.isStr "update-presence" = true ∧
      ∃ status, s1.presenceWrites = s.presenceWrites ++ [((s.sockets ws).userId, status)]) := by
  unfold routeMessage at h
  simp only at h
  split at h
  · next hty =>
    cases h
    rcases updatePresence_writes s (s.sockets ws).userId payload with hw | hw
    · exact Or.inl hw
    · exact Or.inr ⟨hty, hw⟩
  · split at h
    · exact Or.inl (callUser_writes _ _ _ _ _ _ _ h)
    · split at h
      · exact Or.inl (relay_writes _ _ _ _ _ _ _ h)
      · split at h
        · exact Or.inl (relay_writes _ _ _ _ _ _ _ h)
        · cases h; exact Or.inl rfl

theorem onMessage_writes (env : Env) (s : Server) (ws : Handle) (raw : String) :
    (onMessage env s ws raw).presenceWrites = s.presenceWrites ∨
    (isUpdatePresence env raw = true ∧
      ∃ status, (onMessage env s ws raw).presenceWrites
        = s.presenceWrites ++ [((s.sockets ws).userId, status)]) := by
  unfold onMessage
  split
  · next s1 h =>
    unfold handleMessage at h
    split at h
    · cases h
    · next parsedMessage hparse =>
      split at h
      · next type payload htype hpayload =>
        split at h
        · rcases routeMessage_writes _ _ _ _ _ h with hw | ⟨hty, hw⟩
          · exact Or.inl hw
          · exact Or.inr ⟨by simp [isUpdatePresence, hparse, htype, hty], hw⟩
        · cases h
      · cases h
  · exact Or.inl rfl

theorem onMessage_sent_not_presence (env : Env) (s : Server) (ws : Handle) (raw : String) :
    ∃ new, (onMessage env s ws raw).sent = s.sent ++ new ∧
      ∀ e ∈ new, (e.2.get "type").isStr "presence-update" = false := by
  rcases onMessage_sent env s ws raw with h | h | h | ⟨text, h⟩ | ⟨target, callType, h⟩
      | ⟨target, ty, payload, hty, h⟩
  · exact ⟨[], by simpa using h, by simp⟩
  · refine ⟨_, h, ?_⟩
    intro e he
    simp only [List.mem_singleton] at he
    subst he
    rfl
  · refine ⟨_, h, ?_⟩
    intro e he
    simp only [List.mem_singleton] at he
    subst he
    rfl
  · refine ⟨_, h, ?_⟩
    intro e he
    simp only [List.mem_singleton] at he
    subst he
    rfl
  · refine ⟨_, h, ?_⟩
    intro e he
    simp only [List.mem_singleton] at he
    subst he
    rfl
  · refine ⟨_, h, ?_⟩
    intro e he
    simp only [List.mem_singleton] at he
    subst he
    simp only [forwardable, List.mem_cons, List.mem_singleton, List.not_mem_nil,
      or_false] at hty
    rcases hty with h | h | h | h | h | h <;> subst h <;>
      simp [forwardFrame, JsVal.get, lookupProp, JsVal.isStr]

/-- A `message` event adds at most one outstanding write, for the user id of
its socket and only when the frame is an `update-presence`, sends frames
none of which is a `presence-update`, and changes nothing else. -/
theorem step_message (env : Env) (s : Server) (ws : Handle) (raw : String) :
    ∃ writes new,
      step env s (.message ws raw)
        = { s with presenceWrites := s.presenceWrites ++ writes, sent := s.sent ++ new } ∧
      (writes = [] ∨ (isUpdatePresence env raw = true ∧
        ∃ status, writes = [((s.sockets ws).userId, status)])) ∧
      ∀ e ∈ new, (e.2.get "type").isStr "presence-update" = false := by
  by_cases hl : (s.sockets ws).listening = true
  · obtain ⟨new, hnew, hno⟩ := onMessage_sent_not_presence env s ws raw
    obtain ⟨f1, f2, f3, f4⟩ := onMessage_fixed env s ws raw
    rcases onMessage_writes env s ws raw with hw | ⟨hup, status, hw⟩
    · refine ⟨[], new, ?_, Or.inl rfl, hno⟩
      simp only [step, hl, if_true]
      exact Server.eq_of_fields _ _ f1 f3 f2 hnew f4 (by simpa using hw)
    · refine ⟨_, new, ?_, Or.inr ⟨hup, status, rfl⟩, hno⟩
      simp only [step, hl, if_true]
      exact Server.eq_of_fields _ _ f1 f3 f2 hnew f4 hw
  · refine ⟨[], [], ?_, Or.inl rfl, by simp⟩
    simp [step, hl]

theorem run_cons (env : Env) (s : Server) (e : Event) (rest : List Event) :
    run env s (e :: rest) = run env (step env s e) rest := rfl

theorem run_append (env : Env) (s : Server) (a b : List Event) :
    run env s (a ++ b) = run env (run env s a) b := by
  simp [run, List.foldl_append]

theorem requestedBy_append (env : Env) (a b : List Event) (s : Server) :
    requestedBy env s (a ++ b) = requestedBy env s a ++ requestedBy env (run env s a) b := by
  induction a generalizing s with
  | nil => simp [requestedBy, run]
  | cons e rest ih => simp [requestedBy, run_cons, ih]

theorem frames_to_absent_client (clients : List Handle) (p : Handle → Bool) (X : Handle)
    (frame : JsVal) (q : JsVal → Bool) (hX : X ∉ clients) :
    ((clients.filter p).map (fun c => (c, frame))).filter
      (fun e => decide (e.1 = X) && q e.2) = [] := by
  rw [List.filter_eq_nil_iff]
  intro e he
  simp only [List.mem_map, List.mem_filter] at he
  obtain ⟨c, ⟨hc, _⟩, hce⟩ := he
  subst hce
  have : c ≠ X := fun h => hX (h ▸ hc)
  simp [this]

/-- Of the frames a broadcast sends to the open members of a duplicate-free
`wss.clients`, exactly one goes to a given open member. -/
theorem frames_to_client (clients : List Handle) (p : Handle → Bool) (X : Handle)
    (frame : JsVal) (q : JsVal → Bool) (hnd : clients.Nodup) (hX : X ∈ clients)
    (hp : p X = true) (hq : q frame = true) :
    ((clients.filter p).map (fun c => (c, frame))).filter
      (fun e => decide (e.1 = X) && q e.2) = [(X, frame)] := by
  induction clients with
  | nil => simp at hX
  | cons c rest ih =>
    rw [List.nodup_cons] at hnd
    by_cases hc : c = X
    · subst hc
      have hrest := frames_to_absent_client rest p c frame q hnd.1
      simp only [List.filter_cons, hp, if_true, List.map_cons, decide_True, Bool.true_and, hq]
      rw [hrest]
    · have hXr : X ∈ rest := by
        rcases List.mem_cons.mp hX with h | h
        · exact absurd h.symm hc
        · exact h
      by_cases hpc : p c = true
      · simp only [List.filter_cons, hpc, if_true, List.map_cons, hc, decide_False,
          Bool.false_and]
        simpa using ih hnd.2 hXr
      · simp only [List.filter_cons, hpc]
        simpa using ih hnd.2 hXr

theorem step_connection_accepted (env : Env) (s : Server) (ws : Handle) (t U : String)
    (decoded : JsVal) (ht : t ≠ "") (hv : env.verify t = some decoded)
    (hid : (decoded.member? "user").bind (fun user => user.member? "id") = some (.str U)) :
    step env s (.connection ws (some t)) =
      { s with
        userConnections := mapSet s.userConnections (.str U) ws
        clients := if ws ∈ s.clients then s.clients else s.clients ++ [ws]
        sockets := Function.update s.sockets ws
          { readyState := .OPEN, userId := .str U, listening := true }
        presenceWrites := s.presenceWrites ++ [(.str U, "online")] } := by
  simp only [step]
  rw [onConnection_accepted env _ ws t U decoded ht hv hid]
  simp [Server.wsOpened]

theorem step_close_authenticated (env : Env) (s : Server) (ws : Handle) (U : String)
    (hU : U ≠ "") (hid : (s.sockets ws).userId = .str U)
    (hl : (s.sockets ws).listening = true) :
    step env s (.close ws) =
      { s with
        userConnections := mapDelete s.userConnections (.str U)
        clients := s.clients.filter (fun c => c ≠ ws)
        sockets := Function.update s.sockets ws { s.sockets ws with readyState := .CLOSED }
        presenceWrites := s.presenceWrites ++ [(.str U, "offline")] } := by
  have hl2 : ((s.wsClosed ws).sockets ws).listening = true := by
    simp [Server.wsClosed, hl]
  have hid2 : ((s.wsClosed ws).sockets ws).userId = .str U := by
    simp [Server.wsClosed, hid]
  simp only [step, hl2, if_true]
  rw [onClose_authenticated _ ws U hU hid2]
  simp [Server.wsClosed]

/-! ## What each event does to the server -/

theorem onConnection_effects (env : Env) (s : Server) (ws : Handle) (token : Option String) :
    (onConnection env s ws token).sent = s.sent ∧
    (onConnection env s ws token).clients = s.clients ∧
    (∀ w, w ≠ ws → (onConnection env s ws token).sockets w = s.sockets w) ∧
    ((onConnection env s ws token).presenceWrites = s.presenceWrites ∨
      (onConnection env s ws token).presenceWrites
        = s.presenceWrites ++ [(((onConnection env s ws token).sockets ws).userId, "online")]) := by
  have hterm : ∀ T : Server, T.sent = s.sent → T.clients = s.clients → T.sockets = s.sockets →
      T.presenceWrites = s.presenceWrites →
      (T.terminate ws).sent = s.sent ∧ (T.terminate ws).clients = s.clients ∧
      (∀ w, w ≠ ws → (T.terminate ws).sockets w = s.sockets w) ∧
      ((T.terminate ws).presenceWrites = s.presenceWrites ∨
        (T.terminate ws).presenceWrites
          = s.presenceWrites ++ [(((T.terminate ws).sockets ws).userId, "online")]) := by
    intro T h1 h2 h3 h4
    refine ⟨h1, h2, ?_, Or.inl h4⟩
    intro w hw
    simp [Server.terminate, Function.update_noteq hw, h3]
  unfold onConnection
  split
  · exact hterm s rfl rfl rfl rfl
  · split
    · exact hterm s rfl rfl rfl rfl
    · split
      · exact hterm s rfl rfl rfl rfl
      · split
        · exact hterm s rfl rfl rfl rfl
        · split
          · exact hterm _ rfl rfl rfl rfl
          · refine ⟨rfl, rfl, ?_, Or.inr ?_⟩
            · intro w hw
              simp [updateAndBroadcastPresence, Function.update_noteq hw]
            · simp [updateAndBroadcastPresence]

theorem step_connection_effects (env : Env) (s : Server) (w : Handle) (token : Option String) :
    (step env s (.connection w token)).sent = s.sent ∧
    (step env s (.connection w token)).clients
      = (if w ∈ s.clients then s.clients else s.clients ++ [w]) ∧
    (∀ x, x ≠ w → (step env s (.connection w token)).sockets x = s.sockets x) ∧
    ((step env s (.connection w token)).presenceWrites = s.presenceWrites ∨
      (step env s (.connection w token)).presenceWrites
        = s.presenceWrites
          ++ [(((step env s (.connection w token)).sockets w).userId, "online")]) := by
  obtain ⟨h1, h2, h3, h4⟩ := onConnection_effects env (s.wsOpened w) w token
  refine ⟨h1, h2, ?_, h4⟩
  intro x hx
  simp only [step]
  rw [h3 x hx]
  simp [Server.wsOpened, Function.update_noteq hx]

theorem step_close_effects (env : Env) (s : Server) (w : Handle) :
    (step env s (.close w)).sent = s.sent ∧
    (step env s (.close w)).clients = s.clients.filter (fun c => c ≠ w) ∧
    (∀ x, x ≠ w → (step env s (.close w)).sockets x = s.sockets x) ∧
    ((step env s (.close w)).presenceWrites = s.presenceWrites ∨
      (step env s (.close w)).presenceWrites
        = s.presenceWrites ++ [((s.sockets w).userId, "offline")]) := by
  have hsock : ∀ x, x ≠ w → (s.wsClosed w).sockets x = s.sockets x := by
    intro x hx
    simp [Server.wsClosed, Function.update_noteq hx]
  have huid : ((s.wsClosed w).sockets w).userId = (s.sockets w).userId := by
    simp [Server.wsClosed]
  simp only [step]
  split
  · unfold onClose
    simp only [huid]
    split
    · split
      · exact ⟨rfl, rfl, hsock, Or.inr rfl⟩
      · exact ⟨rfl, rfl, hsock, Or.inl rfl⟩
    · exact ⟨rfl, rfl, hsock, Or.inl rfl⟩
  · exact ⟨rfl, rfl, hsock, Or.inl rfl⟩

theorem step_settled_effects (env : Env) (s : Server) (i : Nat) (result : WriteResult) :
    (step env s (.settled i result)).clients = s.clients ∧
    (step env s (.settled i result)).sockets = s.sockets ∧
    ((step env s (.settled i result)).sent = s.sent ∨
      ∃ id presenceStatus lastSeen, i < s.presenceWrites.length ∧
        result = .updated id presenceStatus lastSeen ∧
        (step env s (.settled i result)).sent
          = s.sent ++ (s.clients.filter (fun c => (s.sockets c).readyState = .OPEN)).map
              (fun c => (c, presenceFrame id presenceStatus lastSeen))) := by
  simp only [step]
  by_cases hi : i < s.presenceWrites.length
  · cases result with
    | dbError => simp [presenceSettled, hi]
    | notFound => simp [presenceSettled, hi]
    | updated id presenceStatus lastSeen =>
      rw [presenceSettled_updated s i id presenceStatus lastSeen hi]
      exact ⟨rfl, rfl, Or.inr ⟨id, presenceStatus, lastSeen, hi, rfl, rfl⟩⟩
  · simp [presenceSettled, hi]

theorem step_sent_append (env : Env) (s : Server) (e : Event) :
    ∃ new, (step env s e).sent = s.sent ++ new := by
  cases e with
  | connection w token => exact ⟨[], by simp [(step_connection_effects env s w token).1]⟩
  | message w raw =>
    obtain ⟨_, new, h, _, _⟩ := step_message env s w raw
    exact ⟨new, by rw [h]⟩
  | close w => exact ⟨[], by simp [(step_close_effects env s w).1]⟩
  | settled i result =>
    rcases (step_settled_effects env s i result).2.2 with h | ⟨_, _, _, _, _, h⟩
    · exact ⟨[], by simp [h]⟩
    · exact ⟨_, h⟩

theorem run_sent_append (env : Env) (events : List Event) (s : Server) :
    ∃ new, (run env s events).sent = s.sent ++ new := by
  induction events generalizing s with
  | nil => exact ⟨[], by simp [run]⟩
  | cons e rest ih =>
    obtain ⟨n1, h1⟩ := step_sent_append env s e
    obtain ⟨n2, h2⟩ := ih (step env s e)
    exact ⟨n1 ++ n2, by rw [run_cons, h2, h1, List.append_assoc]⟩

theorem sentSince_cons (env : Env) (s : Server) (e : Event) (rest : List Event) :
    sentSince s (run env s (e :: rest))
      = sentSince s (step env s e) ++ sentSince (step env s e) (run env (step env s e) rest) := by
  obtain ⟨n1, h1⟩ := step_sent_append env s e
  obtain ⟨n2, h2⟩ := run_sent_append env rest (step env s e)
  rw [sentSince_append s _ n1 h1, sentSince_append _ _ n2 h2,
    sentSince_append s _ (n1 ++ n2) (by rw [run_cons, h2, h1, List.append_assoc])]

/-! ## One connect/close cycle among other events -/

theorem sentSince_same (s r : Server) (h : r.sent = s.sent) : sentSince s r = [] :=
  sentSince_append s r [] (by simp [h])

theorem isPresenceOf_presenceFrame (U : String) (id presenceStatus : JsVal) (lastSeen : String) :
    isPresenceOf U (presenceFrame id presenceStatus lastSeen) = id.isStr U := by
  simp [isPresenceOf, presenceFrame, JsVal.get, lookupProp, JsVal.isStr]

theorem requested_of_writes (env : Env) (s : Server) (e : Event) (writes : List (JsVal × Status))
    (h : (step env s e).presenceWrites = s.presenceWrites ++ writes)
    (hns : ∀ i result, e ≠ .settled i result) :
    requested env s e = writes := by
  cases e with
  | settled i result => exact absurd rfl (hns i result)
  | connection w token => simp [requested, h]
  | message w raw => simp [requested, h]
  | close w => simp [requested, h]

/-- A quiet event keeps the invariant of the cycle, requests no presence
transition for `U`, and sends `X` no `presence-update` about `U`. -/
theorem quietEvent_step (env : Env) (U : String) (ws X : Handle) (s : Server) (e : Event)
    (hinv : CycleInvariant U ws X s) (hq : quietEvent env U ws X s e = true) :
    CycleInvariant U ws X (step env s e) ∧
    (requested env s e).filter (fun w => w.1.isStr U) = [] ∧
    (sentSince s (step env s e)).filter
      (fun e => decide (e.1 = X) && isPresenceOf U e.2) = [] := by
  obtain ⟨hXin, hnd, hXopen, huid, hl⟩ := hinv
  cases e with
  | connection w token =>
    simp only [quietEvent, Bool.and_eq_true, bne_iff_ne, ne_eq, Bool.not_eq_true,
      Bool.not_eq_eq_eq_not, Bool.not_true] at hq
    obtain ⟨⟨hws, hwX⟩, hnot⟩ := hq
    obtain ⟨h1, h2, h3, h4⟩ := step_connection_effects env s w token
    refine ⟨⟨?_, ?_, ?_, ?_, ?_⟩, ?_, ?_⟩
    · rw [h2]; split
      · exact hXin
      · exact List.mem_append_left _ hXin
    · rw [h2]; split
      · exact hnd
      · next hw =>
        exact List.Nodup.append hnd (List.nodup_singleton w) (by simpa using hw)
    · rw [h3 X (fun h => hwX h.symm)]; exact hXopen
    · rw [h3 ws (fun h => hws h.symm)]; exact huid
    · rw [h3 ws (fun h => hws h.symm)]; exact hl
    · rcases h4 with h | h
      · rw [requested_of_writes env s _ [] (by simpa using h) (by intro i r; simp)]; rfl
      · rw [requested_of_writes env s _ _ h (by intro i r; simp)]
        simp [hnot]
    · rw [sentSince_same _ _ h1]; rfl
  | message w raw =>
    obtain ⟨writes, new, hstep, hw, hnew⟩ := step_message env s w raw
    refine ⟨?_, ?_, ?_⟩
    · rw [hstep]; exact ⟨hXin, hnd, hXopen, huid, hl⟩
    · rw [requested_of_writes env s _ writes (by rw [hstep]) (by intro i r; simp)]
      rcases hw with h | ⟨hup, status, h⟩
      · rw [h]; rfl
      · rw [h]
        simp only [quietEvent, hup, Bool.true_and, Bool.not_eq_true, Bool.not_eq_eq_eq_not,
          Bool.not_true] at hq
        simp [hq]
    · rw [sentSince_append s _ new (by rw [hstep])]
      rw [List.filter_eq_nil_iff]
      intro f hf
      simp [isPresenceOf, hnew f hf]
  | close w =>
    simp only [quietEvent, Bool.and_eq_true, bne_iff_ne, ne_eq, Bool.not_eq_true,
      Bool.not_eq_eq_eq_not, Bool.not_true] at hq
    obtain ⟨⟨hws, hwX⟩, hnot⟩ := hq
    obtain ⟨h1, h2, h3, h4⟩ := step_close_effects env s w
    refine ⟨⟨?_, ?_, ?_, ?_, ?_⟩, ?_, ?_⟩
    · rw [h2]; exact List.mem_filter.mpr ⟨hXin, by simpa using fun h => hwX h.symm⟩
    · rw [h2]; exact hnd.filter _
    · rw [h3 X (fun h => hwX h.symm)]; exact hXopen
    · rw [h3 ws (fun h => hws h.symm)]; exact huid
    · rw [h3 ws (fun h => hws h.symm)]; exact hl
    · rcases h4 with h | h
      · rw [requested_of_writes env s _ [] (by simpa using h) (by intro i r; simp)]; rfl
      · rw [requested_of_writes env s _ _ h (by intro i r; simp)]
        simp [hnot]
    · rw [sentSince_same _ _ h1]; rfl
  | settled i result =>
    obtain ⟨h1, h2, h3⟩ := step_settled_effects env s i result
    refine ⟨⟨?_, ?_, ?_, ?_, ?_⟩, rfl, ?_⟩
    · rw [h1]; exact hXin
    · rw [h1]; exact hnd
    · rw [h2]; exact hXopen
    · rw [h2]; exact huid
    · rw [h2]; exact hl
    · rcases h3 with h | ⟨id, presenceStatus, lastSeen, hi, hres, h⟩
      · rw [sentSince_same _ _ h]; rfl
      · rw [sentSince_append s _ _ h, List.filter_eq_nil_iff]
        intro f hf
        simp only [List.mem_map, List.mem_filter] at hf
        obtain ⟨c, _, hcf⟩ := hf
        subst hcf
        have hget : s.presenceWrites[i]? = some (s.presenceWrites[i]) :=
          List.getElem?_eq_getElem hi
        simp only [quietEvent, hget, hres, aboutUser, Bool.and_eq_true, Bool.not_eq_true,
          Bool.not_eq_eq_eq_not, Bool.not_true] at hq
        simp [isPresenceOf_presenceFrame, hq.2]

/-- The write of `status` for `U` settling successfully keeps the invariant
of the cycle, requests nothing, and sends `X` exactly one `presence-update`
about `U`, with that status. -/
theorem settlesWrite_step (env : Env) (U status seen : String) (ws X : Handle) (s : Server)
    (e : Event) (hinv : CycleInvariant U ws X s)
    (hq : settlesWrite U status seen s e = true) :
    CycleInvariant U ws X (step env s e) ∧
    requested env s e = [] ∧
    (sentSince s (step env s e)).filter
      (fun e => decide (e.1 = X) && isPresenceOf U e.2)
      = [(X, presenceFrame (.str U) (.str status) seen)] := by
  obtain ⟨hXin, hnd, hXopen, huid, hl⟩ := hinv
  cases e with
  | connection w token => simp [settlesWrite] at hq
  | message w raw => simp [settlesWrite] at hq
  | close w => simp [settlesWrite] at hq
  | settled i result =>
    simp only [settlesWrite] at hq
    split at hq
    · cases hq
    · next w hw =>
      have hi : i < s.presenceWrites.length := by
        rcases Nat.lt_or_ge i s.presenceWrites.length with h | h
        · exact h
        · rw [List.getElem?_eq_none h] at hw; cases hw
      cases result with
      | dbError => simp [settlesWith] at hq
      | notFound => simp [settlesWith] at hq
      | updated id presenceStatus lastSeen =>
        simp only [settlesWith, Bool.and_eq_true, beq_iff_eq] at hq
        obtain ⟨_, ⟨hid, hps⟩, hls⟩ := hq
        have hid2 := isStr_eq _ _ hid
        have hps2 := isStr_eq _ _ hps
        subst hid2 hps2 hls
        have hstep : step env s (.settled i (.updated (.str U) (.str status) lastSeen))
            = presenceSettled s i (.updated (.str U) (.str status) lastSeen) := rfl
        rw [hstep, presenceSettled_updated s i _ _ _ hi]
        refine ⟨⟨hXin, hnd, hXopen, huid, hl⟩, rfl, ?_⟩
        rw [sentSince_append s _ _ rfl]
        exact frames_to_client _ _ X _ (isPresenceOf U) hnd hXin (by simpa using hXopen)
          (by rw [isPresenceOf_presenceFrame]; simp [JsVal.isStr])

/-- The close of `ws` keeps the invariant of the cycle, requests the
transition to offline for `U`, and sends nothing. -/
theorem closeOf_step (env : Env) (U : String) (ws X : Handle) (s : Server) (e : Event)
    (hU : U ≠ "") (hX : X ≠ ws) (hinv : CycleInvariant U ws X s)
    (hq : isCloseOf ws e = true) :
    CycleInvariant U ws X (step env s e) ∧
    requested env s e = [(.str U, "offline")] ∧
    sentSince s (step env s e) = [] := by
  obtain ⟨hXin, hnd, hXopen, huid, hl⟩ := hinv
  cases e with
  | connection w token => simp [isCloseOf] at hq
  | message w raw => simp [isCloseOf] at hq
  | settled i result => simp [isCloseOf] at hq
  | close w =>
    simp only [isCloseOf, beq_iff_eq] at hq
    subst hq
    have hstep := step_close_authenticated env s w U hU huid hl
    refine ⟨⟨?_, ?_, ?_, ?_, ?_⟩, ?_, ?_⟩
    · rw [hstep]; exact List.mem_filter.mpr ⟨hXin, by simpa using hX⟩
    · rw [hstep]; exact hnd.filter _
    · rw [hstep]; simp [Function.update_noteq hX, hXopen]
    · rw [hstep]; simp [huid]
    · rw [hstep]; simp [hl]
    · exact requested_of_writes env s _ _ (by rw [hstep]) (by intro i r; simp)
    · exact sentSince_same _ _ (by rw [hstep])

theorem filter_eraseIdx_of_neg {α : Type} (p : α → Bool) (l : List α) (i : Nat) (a : α)
    (h : l[i]? = some a) (hp : p a = false) : (l.eraseIdx i).filter p = l.filter p := by
  induction l generalizing i with
  | nil => simp at h
  | cons x xs ih =>
    cases i with
    | zero =>
      simp only [List.getElem?_cons_zero, Option.some.injEq] at h
      subst h
      simp [List.eraseIdx, List.filter_cons, hp]
    | succ j =>
      simp only [List.getElem?_cons_succ] at h
      simp [List.eraseIdx, List.filter_cons, ih j h]

theorem filter_eraseIdx_of_pos {α : Type} (p : α → Bool) (l : List α) (i : Nat) (a : α)
    (h : l[i]? = some a) (hp : p a = true) :
    ∃ A B, l.filter p = A ++ a :: B ∧ (l.eraseIdx i).filter p = A ++ B := by
  induction l generalizing i with
  | nil => simp at h
  | cons x xs ih =>
    cases i with
    | zero =>
      simp only [List.getElem?_cons_zero, Option.some.injEq] at h
      subst h
      exact ⟨[], xs.filter p, by simp [List.filter_cons, hp], by simp [List.eraseIdx]⟩
    | succ j =>
      simp only [List.getElem?_cons_succ] at h
      obtain ⟨A, B, h1, h2⟩ := ih j h
      by_cases hx : p x = true
      · exact ⟨x :: A, B, by simp [List.filter_cons, hx, h1],
          by simp [List.eraseIdx, List.filter_cons, hx, h2]⟩
      · exact ⟨A, B, by simp [List.filter_cons, hx, h1],
          by simp [List.eraseIdx, List.filter_cons, hx, h2]⟩

theorem presenceSettled_writes (s : Server) (i : Nat) (result : WriteResult) :
    (presenceSettled s i result).presenceWrites = s.presenceWrites.eraseIdx i := by
  by_cases hi : i < s.presenceWrites.length
  · cases result <;> simp [presenceSettled, hi, broadcast_eq]
  · simp [presenceSettled, hi, List.eraseIdx_of_length_le (Nat.le_of_not_lt hi)]

/-- A quiet event leaves the outstanding writes of `U` as they are. -/
theorem quietEvent_writes (env : Env) (U : String) (ws X : Handle) (s : Server) (e : Event)
    (hq : quietEvent env U ws X s e = true) :
    (step env s e).presenceWrites.filter (fun w => w.1.isStr U)
      = s.presenceWrites.filter (fun w => w.1.isStr U) := by
  cases e with
  | connection w token =>
    simp only [quietEvent, Bool.and_eq_true, bne_iff_ne, ne_eq, Bool.not_eq_true,
      Bool.not_eq_eq_eq_not, Bool.not_true] at hq
    rcases (step_connection_effects env s w token).2.2.2 with h | h
    · rw [h]
    · rw [h, List.filter_append]
      simp [hq.2]
  | message w raw =>
    obtain ⟨writes, new, hstep, hw, _⟩ := step_message env s w raw
    rw [hstep]
    rcases hw with h | ⟨hup, status, h⟩
    · simp [h]
    · simp only [quietEvent, hup, Bool.true_and, Bool.not_eq_true, Bool.not_eq_eq_eq_not,
        Bool.not_true] at hq
      simp [h, hq]
  | close w =>
    simp only [quietEvent, Bool.and_eq_true, bne_iff_ne, ne_eq, Bool.not_eq_true,
      Bool.not_eq_eq_eq_not, Bool.not_true] at hq
    rcases (step_close_effects env s w).2.2.2 with h | h
    · rw [h]
    · rw [h, List.filter_append]
      simp [hq.2]
  | settled i result =>
    have hstep : (step env s (.settled i result)).presenceWrites
        = s.presenceWrites.eraseIdx i := presenceSettled_writes s i result
    rw [hstep]
    simp only [quietEvent] at hq
    split at hq
    · next hnone =>
      rw [List.eraseIdx_of_length_le (List.getElem?_eq_none_iff.mp hnone)]
    · next w hw =>
      simp only [Bool.and_eq_true, Bool.not_eq_true, Bool.not_eq_eq_eq_not,
        Bool.not_true] at hq
      exact filter_eraseIdx_of_neg _ _ i w hw hq.1

/-- The write of `status` for `U` settling takes that write out of the
outstanding writes of `U`. -/
theorem settlesWrite_writes (env : Env) (U status seen : String) (s : Server) (e : Event)
    (hq : settlesWrite U status seen s e = true) :
    ∃ A B, s.presenceWrites.filter (fun w => w.1.isStr U) = A ++ (.str U, status) :: B ∧
      (step env s e).presenceWrites.filter (fun w => w.1.isStr U) = A ++ B := by
  cases e with
  | connection w token => simp [settlesWrite] at hq
  | message w raw => simp [settlesWrite] at hq
  | close w => simp [settlesWrite] at hq
  | settled i result =>
    have hstep : (step env s (.settled i result)).presenceWrites
        = s.presenceWrites.eraseIdx i := presenceSettled_writes s i result
    rw [hstep]
    simp only [settlesWrite] at hq
    split at hq
    · cases hq
    · next w hw =>
      simp only [writeIs, Bool.and_eq_true, beq_iff_eq] at hq
      obtain ⟨⟨hid, hst⟩, _⟩ := hq
      have hw2 : w = (JsVal.str U, status) := by
        have h1 := isStr_eq _ _ hid
        cases w
        simp_all
      rw [hw2] at hw
      exact filter_eraseIdx_of_pos _ _ i _ hw (by simp [JsVal.isStr])

theorem closeOf_writes (env : Env) (U : String) (ws X : Handle) (s : Server) (e : Event)
    (hU : U ≠ "") (hinv : CycleInvariant U ws X s) (hq : isCloseOf ws e = true) :
    (step env s e).presenceWrites = s.presenceWrites ++ [(.str U, "offline")] := by
  obtain ⟨_, _, _, huid, hl⟩ := hinv
  cases e with
  | connection w token => simp [isCloseOf] at hq
  | message w raw => simp [isCloseOf] at hq
  | settled i result => simp [isCloseOf] at hq
  | close w =>
    simp only [isCloseOf, beq_iff_eq] at hq
    subst hq
    rw [step_close_authenticated env s w U hU huid hl]

theorem split_single {α : Type} (A B : List α) (a b : α) (h : [b] = A ++ a :: B) :
    A ++ B = [] := by
  cases A with
  | nil => simp at h; simp [h.2]
  | cons x A1 =>
    have := congrArg List.length h
    simp at this

theorem split_pair {α : Type} (A B : List α) (a b : α) (hne : b ≠ a)
    (h : [a, b] = A ++ a :: B) : A ++ B = [b] := by
  cases A with
  | nil => simp at h; simp [h]
  | cons x A1 =>
    cases A1 with
    | nil =>
      simp at h
      exact absurd h.2.1 hne
    | cons y A2 =>
      have := congrArg List.length h
      simp at this

/-- Along events that make up the rest of a cycle from a stage, the
transitions requested for `U` and the `presence-update` frames about `U`
sent on `X` are the ones left in that stage, and at the end no write of `U`
is outstanding. -/
theorem cycleTrace_sound (env : Env) (U : String) (ws X : Handle)
    (seenOnline seenOffline : String) (hU : U ≠ "") (hX : X ≠ ws) (events : List Event) :
    ∀ (phase : CyclePhase) (s : Server), CycleInvariant U ws X s →
      s.presenceWrites.filter (fun w => w.1.isStr U) = writesOutstanding U phase →
      cycleTrace env U ws X seenOnline seenOffline phase s events = true →
      (requestedBy env s events).filter (fun w => w.1.isStr U) = requestsLeft U phase ∧
      (sentSince s (run env s events)).filter
        (fun e => decide (e.1 = X) && isPresenceOf U e.2)
        = framesLeft X U seenOnline seenOffline phase ∧
      (run env s events).presenceWrites.filter (fun w => w.1.isStr U) = [] := by
  induction events with
  | nil =>
    intro phase s _ hout h
    simp only [cycleTrace, decide_eq_true_eq] at h
    subst h
    exact ⟨rfl, by rw [sentSince_same s (run env s []) rfl]; rfl, hout⟩
  | cons e rest ih =>
    intro phase s hinv hout h
    have hself : (JsVal.str U).isStr U = true := by simp [JsVal.isStr]
    simp only [cycleTrace] at h
    split at h
    · next next hnext =>
      simp only [requestedBy, sentSince_cons, List.filter_append]
      rw [run_cons]
      unfold nextPhase at hnext
      split at hnext
      · next hc =>
        obtain ⟨hinv1, hreq, hsent⟩ := closeOf_step env U ws X s e hU hX hinv hc
        have hwr := closeOf_writes env U ws X s e hU hinv hc
        have hout1 : (step env s e).presenceWrites.filter (fun w => w.1.isStr U)
            = writesOutstanding U phase ++ [(.str U, "offline")] := by
          rw [hwr, List.filter_append, hout]
          simp [hself]
        cases phase <;> simp at hnext <;> subst hnext
        · obtain ⟨ihr, ihs, iho⟩ := ih .closedOnlineOutstanding _ hinv1 hout1 h
          rw [hreq, hsent, ihr, ihs]
          exact ⟨by simp [requestsLeft, hself], by simp [framesLeft], iho⟩
        · obtain ⟨ihr, ihs, iho⟩ := ih .closedOnlineSettled _ hinv1 hout1 h
          rw [hreq, hsent, ihr, ihs]
          exact ⟨by simp [requestsLeft, hself], by simp [framesLeft], iho⟩
      · split at hnext
        · next hc =>
          obtain ⟨hinv1, hreq, hsent⟩ :=
            settlesWrite_step env U "online" seenOnline ws X s e hinv hc
          obtain ⟨A, B, hA, hB⟩ := settlesWrite_writes env U "online" seenOnline s e hc
          rw [hout] at hA
          cases phase <;> simp at hnext <;> subst hnext
          · have hout1 := hB.trans (split_single A B _ _ hA)
            obtain ⟨ihr, ihs, iho⟩ := ih .onlineSettled _ hinv1 hout1 h
            rw [hreq, hsent, ihr, ihs]
            exact ⟨by simp [requestsLeft], by simp [framesLeft], iho⟩
          · have hout1 := hB.trans (split_pair A B _ _ (by simp) hA)
            obtain ⟨ihr, ihs, iho⟩ := ih .closedOnlineSettled _ hinv1 hout1 h
            rw [hreq, hsent, ihr, ihs]
            exact ⟨by simp [requestsLeft], by simp [framesLeft], iho⟩
        · split at hnext
          · next hc =>
            obtain ⟨hinv1, hreq, hsent⟩ :=
              settlesWrite_step env U "offline" seenOffline ws X s e hinv hc
            obtain ⟨A, B, hA, hB⟩ := settlesWrite_writes env U "offline" seenOffline s e hc
            rw [hout] at hA
            cases phase <;> simp at hnext
            subst hnext
            have hout1 := hB.trans (split_single A B _ _ hA)
            obtain ⟨ihr, ihs, iho⟩ := ih .finished _ hinv1 hout1 h
            rw [hreq, hsent, ihr, ihs]
            exact ⟨by simp [requestsLeft], by simp [framesLeft], iho⟩
          · split at hnext
            · next hc =>
              obtain ⟨hinv1, hreq, hsent⟩ := quietEvent_step env U ws X s e hinv hc
              have hout1 := (quietEvent_writes env U ws X s e hc).trans hout
              cases phase <;> simp at hnext <;> subst hnext <;>
                (obtain ⟨ihr, ihs, iho⟩ := ih _ _ hinv1 hout1 h
                 rw [hreq, hsent, ihr, ihs]
                 exact ⟨by simp, by simp, iho⟩)
            · cases hnext
    · cases h

/-! ## C14 -/

/-- C14, counterexample: bob is connected on the open socket 2 when alice
connects on socket 1 and closes it before her `online` write has settled.
The transitions requested for alice are online then offline and both writes
succeed, but the `offline` write settles first, and bob's socket is sent the
`presence-update` with status offline before the one with status online. -/
theorem C14_offline_broadcast_can_come_first :
    (requestedBy demoEnv bobWatching hastyCycle).filter (fun w => w.1.isStr "alice")
      = [(.str "alice", "online"), (.str "alice", "offline")] ∧
    (run demoEnv bobWatching [.connection 1 (some "jwt-alice"), .close 1]).presenceWrites
      = [(.str "alice", "online"), (.str "alice", "offline")] ∧
    2 ∈ bobWatching.clients ∧ (bobWatching.sockets 2).readyState = .OPEN ∧
    2 ∈ (run demoEnv bobWatching hastyCycle).clients ∧
    ((run demoEnv bobWatching hastyCycle).sockets 2).readyState = .OPEN ∧
    (sentSince bobWatching (run demoEnv bobWatching hastyCycle)).filter
        (fun e => decide (e.1 = 2) && isPresenceOf "alice" e.2)
      = [(2, .obj [("type", .str "presence-update"),
            ("payload", .obj [("userId", .str "alice"), ("status", .str "offline"),
              ("lastSeen", .str "2024-01-01T10:00:02.000Z")])]),
         (2, .obj [("type", .str "presence-update"),
            ("payload", .obj [("userId", .str "alice"), ("status", .str "online"),
              ("lastSeen", .str "2024-01-01T10:00:01.000Z")])])] := by
  refine ⟨rfl, rfl, by decide, by decide, by decide, by decide, rfl⟩

/-- C14, amended: for every non-empty user id U and every single
connect/close cycle of U on one socket that starts with no presence write of
U outstanding and is followed from the connect until its `offline` write has
settled, during which no socket of U sends an `update-presence` frame, no
other socket authenticated as U connects or closes, both writes of U succeed
(each returns the record of U with the status written), and the `online`
write settles before the `offline` write (before the socket closes, or after
it), while other sockets may connect, close and send frames and presence
writes of other users may settle, in any interleaving: the presence
transitions requested for U are exactly online followed by offline, every
other socket that is an open member of `wss.clients` at the connect and
neither connects nor closes during the cycle is sent exactly one
`presence-update` for U with status online and then exactly one with status
offline, in that order, and at the end no presence write of U is
outstanding. -/
theorem C14_presence_cycle (env : Env) (s : Server) (ws X : Handle)
    (t U seenOnline seenOffline : String) (decoded : JsVal) (rest : List Event)
    (hU : U ≠ "") (ht : t ≠ "") (hv : env.verify t = some decoded)
    (hid : (decoded.member? "user").bind (fun user => user.member? "id") = some (.str U))
    (hfresh : s.presenceWrites.filter (fun w => w.1.isStr U) = [])
    (hX : X ≠ ws) (hXin : X ∈ s.clients) (hset : s.clients.Nodup)
    (hXopen : (s.sockets X).readyState = .OPEN)
    (hcycle : cycleTrace env U ws X seenOnline seenOffline .onlineOutstanding
      (step env s (.connection ws (some t))) rest = true) :
    (requestedBy env s (.connection ws (some t) :: rest)).filter (fun w => w.1.isStr U)
      = [(.str U, "online"), (.str U, "offline")] ∧
    (sentSince s (run env s (.connection ws (some t) :: rest))).filter
        (fun e => decide (e.1 = X) && isPresenceOf U e.2)
      = [(X, .obj [("type", .str "presence-update"),
            ("payload", .obj [("userId", .str U), ("status", .str "online"),
              ("lastSeen", .str seenOnline)])]),
         (X, .obj [("type", .str "presence-update"),
            ("payload", .obj [("userId", .str U), ("status", .str "offline"),
              ("lastSeen", .str seenOffline)])])] ∧
    (run env s (.connection ws (some t) :: rest)).presenceWrites.filter
        (fun w => w.1.isStr U) = [] := by
  have hstep := step_connection_accepted env s ws t U decoded ht hv hid
  have hself : (JsVal.str U).isStr U = true := by simp [JsVal.isStr]
  have hinv : CycleInvariant U ws X (step env s (.connection ws (some t))) := by
    rw [hstep]
    refine ⟨?_, ?_, ?_, ?_, ?_⟩
    · show X ∈ (if ws ∈ s.clients then s.clients else s.clients ++ [ws])
      split
      · exact hXin
      · exact List.mem_append_left _ hXin
    · show (if ws ∈ s.clients then s.clients else s.clients ++ [ws]).Nodup
      split
      · exact hset
      · next hw =>
        exact List.Nodup.append hset (List.nodup_singleton ws) (by simpa using hw)
    · simp [Function.update_noteq hX, hXopen]
    · simp
    · simp
  have hout : (step env s (.connection ws (some t))).presenceWrites.filter
      (fun w => w.1.isStr U) = writesOutstanding U .onlineOutstanding := by
    rw [hstep]
    show (s.presenceWrites ++ [(JsVal.str U, "online")]).filter (fun w => w.1.isStr U) = _
    rw [List.filter_append, hfresh]
    simp [writesOutstanding, hself]
  obtain ⟨hreq, hsent, hnone⟩ :=
    cycleTrace_sound env U ws X seenOnline seenOffline hU hX rest _ _ hinv hout hcycle
  have hfirst : requested env s (.connection ws (some t)) = [(.str U, "online")] :=
    requested_of_writes env s _ _ (by rw [hstep]) (by intro i r; simp)
  have hquiet : sentSince s (step env s (.connection ws (some t))) = [] :=
    sentSince_same _ _ (by rw [hstep])
  refine ⟨?_, ?_, ?_⟩
  · simp only [requestedBy, List.filter_append, hfirst, hreq]
    simp [requestsLeft, hself]
  · rw [sentSince_cons, List.filter_append, hquiet, hsent]
    rfl
  · rw [run_cons]
    exact hnone

/-- C14, amended, on alice's cycle on socket 1 watched by bob on socket 2,
while bob calls her, changes his own presence, and connects and closes a
second socket. -/
theorem C14_presence_cycle_witness :
    bobWatching.presenceWrites.filter (fun w => w.1.isStr "alice") = [] ∧
    cycleTrace demoEnv "alice" 1 2 "2024-01-01T10:00:01.000Z" "2024-01-01T10:00:02.000Z"
        .onlineOutstanding (step demoEnv bobWatching (.connection 1 (some "jwt-alice")))
        busyCycleRest = true ∧
    (requestedBy demoEnv bobWatching (.connection 1 (some "jwt-alice") :: busyCycleRest)).filter
        (fun w => w.1.isStr "alice")
      = [(.str "alice", "online"), (.str "alice", "offline")] ∧
    (sentSince bobWatching
        (run demoEnv bobWatching (.connection 1 (some "jwt-alice") :: busyCycleRest))).filter
        (fun e => decide (e.1 = 2) && isPresenceOf "alice" e.2)
      = [(2, .obj [("type", .str "presence-update"),
            ("payload", .obj [("userId", .str "alice"), ("status", .str "online"),
              ("lastSeen", .str "2024-01-01T10:00:01.000Z")])]),
         (2, .obj [("type", .str "presence-update"),
            ("payload", .obj [("userId", .str "alice"), ("status", .str "offline"),
              ("lastSeen", .str "2024-01-01T10:00:02.000Z")])])] ∧
    (run demoEnv bobWatching
        (.connection 1 (some "jwt-alice") :: busyCycleRest)).presenceWrites.filter
        (fun w => w.1.isStr "alice") = [] :=
  ⟨rfl, rfl, C14_presence_cycle demoEnv bobWatching 1 2 "jwt-alice" "alice"
    "2024-01-01T10:00:01.000Z" "2024-01-01T10:00:02.000Z" (decodedFor "alice") busyCycleRest
    (by decide) (by decide) rfl rfl rfl (by decide) (by decide) (by decide) rfl rfl⟩

/-- A write left over from an earlier connection: alice connected and
closed socket 1, and her `offline` write is still outstanding when she
connects again on socket 5.  It settles inside the new cycle, which is
therefore not one of the cycles above, and bob's socket is sent online,
offline, offline. -/
theorem leftover_write_settles_in_next_cycle :
    aliceLeft.presenceWrites = [(.str "alice", "offline")] ∧
    cycleTrace demoEnv "alice" 5 2 "2024-01-01T10:00:03.000Z" "2024-01-01T10:00:04.000Z"
        .onlineOutstanding (step demoEnv aliceLeft (.connection 5 (some "jwt-alice")))
        leftoverCycleRest = false ∧
    ((sentSince aliceLeft
        (run demoEnv aliceLeft (.connection 5 (some "jwt-alice") :: leftoverCycleRest))).filter
        (fun e => decide (e.1 = 2) && isPresenceOf "alice" e.2)).map
        (fun e => (e.2.get "payload").get "status")
      = [.str "online", .str "offline", .str "offline"] := by
  refine ⟨rfl, rfl, rfl⟩

end MyCalls
